import Mathlib

/-!
Shallow embedding of the simulation core of `src/components/RocketBlaster.tsx`
(arcade space shooter).  Numbers are modelled by `ℚ`; the transcendental
functions of `Math` (`hypot`, `cos`, `sin`, `atan2`, `PI`) are supplied by an
abstract `MathEnv`, and `Math.random()` is modelled as a stream `ℕ → ℚ`
indexed by a counter carried in the game state.  JavaScript `while` loops are
modelled by structurally recursive functions with an explicitly computed fuel
bound that exceeds the number of iterations the source loop performs.
-/

attribute [local semireducible] Rat.add Rat.sub Rat.mul Rat.inv Rat.ofScientific

namespace RocketBlaster

/-- 2-d vector, source type `Vector2D`. -/
structure Vec2 where
  x : ℚ
  y : ℚ
deriving DecidableEq

/-- Source type `Bullet`.  The optional `homing` flag defaults to `false`
(`undefined` is falsy in the source). -/
structure Bullet where
  x : ℚ
  y : ℚ
  radius : ℚ
  speed : ℚ
  direction : Vec2
  homing : Bool := false
deriving DecidableEq

/-- The four enemy kinds of the source's `Enemy["kind"]` union. -/
inductive EnemyKind where
  | asteroid
  | ufo
  | bossUfo
  | bossGolem
deriving DecidableEq

/-- Source type `Enemy`. -/
structure Enemy where
  position : Vec2
  width : ℚ
  height : ℚ
  velocity : Vec2
  kind : EnemyKind
  rotation : ℚ
  spin : ℚ
  hp : ℚ
  asteroidRadii : Option (List ℚ)
deriving DecidableEq

/-- Source type `Rocket` (the player ship). -/
structure Rocket where
  position : Vec2
  width : ℚ
  height : ℚ
  speed : ℚ
deriving DecidableEq

/-- Source type `Particle`; the colors stay the literal strings of the code. -/
structure Particle where
  position : Vec2
  velocity : Vec2
  life : ℚ
  maxLife : ℚ
  sizeStart : ℚ
  sizeEnd : ℚ
  colorStart : String
  colorEnd : String
  additive : Bool
deriving DecidableEq

/-- Source type `PowerUpType`. -/
inductive PowerUpType where
  | spread
  | laser
  | homing
  | shield
  | slowmo
  | magnet
deriving DecidableEq

/-- Source type `PowerUp`. -/
structure PowerUp where
  position : Vec2
  radius : ℚ
  type : PowerUpType
  ttl : ℚ
deriving DecidableEq

/-- Source type `ScoreOrb`. -/
structure ScoreOrb where
  position : Vec2
  velocity : Vec2
  value : ℤ
deriving DecidableEq

/-- Source type `GravityWell`. -/
structure GravityWell where
  position : Vec2
  radius : ℚ
  strength : ℚ
  drift : Vec2
deriving DecidableEq

/-- Source type `Beam`. -/
structure Beam where
  origin : Vec2
  direction : Vec2
  width : ℚ
  ttl : ℚ
deriving DecidableEq

/-- Source type `EnvironmentTheme`. -/
structure EnvironmentTheme where
  name : String
  gradientInner : String
  gradientOuter : String
  nebulaColors : List String
  starColors : List String
  starDensity : ℚ
  planetPalette : List String
  ufoChance : ℚ
  enemySpeedMultiplier : ℚ
deriving DecidableEq

/-- The source's `THEMES` table (all five entries, verbatim values). -/
def THEMES : List EnvironmentTheme :=
  [ { name := "Blue Void"
    , gradientInner := "#0b132b"
    , gradientOuter := "#050814"
    , nebulaColors := ["rgba(80,160,255,0.10)", "rgba(160,80,255,0.08)"]
    , starColors := ["#c0d7ff", "#9ab6ff", "#7aa2f7"]
    , starDensity := 120
    , planetPalette := ["#8bc1ff", "#6fb1ff", "#94a3b8", "#64748b"]
    , ufoChance := 0.45
    , enemySpeedMultiplier := 1.0 }
  , { name := "Ember Rift"
    , gradientInner := "#1a0b0b"
    , gradientOuter := "#0a0404"
    , nebulaColors := ["rgba(255,120,60,0.10)", "rgba(255,200,120,0.07)"]
    , starColors := ["#ffd9a8", "#ffc27a", "#ffad5e"]
    , starDensity := 110
    , planetPalette := ["#ffac6b", "#ff8a4a", "#b45309", "#92400e"]
    , ufoChance := 0.3
    , enemySpeedMultiplier := 1.1 }
  , { name := "Emerald Drift"
    , gradientInner := "#062014"
    , gradientOuter := "#03110a"
    , nebulaColors := ["rgba(60,200,140,0.10)", "rgba(120,255,200,0.06)"]
    , starColors := ["#bdf0dd", "#9be9c8", "#86efac"]
    , starDensity := 130
    , planetPalette := ["#34d399", "#10b981", "#047857", "#064e3b"]
    , ufoChance := 0.5
    , enemySpeedMultiplier := 0.95 }
  , { name := "Violet Nebula"
    , gradientInner := "#1a0f2e"
    , gradientOuter := "#0a0616"
    , nebulaColors := ["rgba(160,120,255,0.10)", "rgba(255,120,220,0.06)"]
    , starColors := ["#e9d5ff", "#c4b5fd", "#a78bfa"]
    , starDensity := 140
    , planetPalette := ["#a78bfa", "#8b5cf6", "#7c3aed", "#6d28d9"]
    , ufoChance := 0.55
    , enemySpeedMultiplier := 1.0 }
  , { name := "Icy Expanse"
    , gradientInner := "#0a1b24"
    , gradientOuter := "#030c12"
    , nebulaColors := ["rgba(120,220,255,0.10)", "rgba(80,180,255,0.06)"]
    , starColors := ["#eef7ff", "#dbeafe", "#bfdbfe"]
    , starDensity := 150
    , planetPalette := ["#93c5fd", "#7dd3fc", "#67e8f9", "#22d3ee"]
    , ufoChance := 0.4
    , enemySpeedMultiplier := 0.9 } ]

/-- Theme lookup `THEMES[i]`; all reachable indices are in range, the default
only totalizes the function. -/
def themeAt (i : ℕ) : EnvironmentTheme :=
  THEMES.getD i
    { name := "Blue Void", gradientInner := "", gradientOuter := ""
    , nebulaColors := [], starColors := [], starDensity := 0
    , planetPalette := [], ufoChance := 0.45, enemySpeedMultiplier := 1.0 }

/-- Abstract interface for the real-valued `Math` functions the core calls.
`hyp x y` stands for `Math.hypot(x, y)`. -/
structure MathEnv where
  hyp : ℚ → ℚ → ℚ
  cos : ℚ → ℚ
  sin : ℚ → ℚ
  atan2 : ℚ → ℚ → ℚ
  pi : ℚ

/-- Source helper `clamp`: `Math.max(min, Math.min(max, v))`. -/
def clamp (v lo hi : ℚ) : ℚ := max lo (min hi v)

/-- Source helper `length`: `Math.hypot(v.x, v.y)`. -/
def vecLength (env : MathEnv) (v : Vec2) : ℚ := env.hyp v.x v.y

/-- The divisor `normalize` uses: `length(v) || 1` (JavaScript `||` replaces a
zero length by `1`). -/
def normalizeLen (env : MathEnv) (v : Vec2) : ℚ :=
  if vecLength env v = 0 then 1 else vecLength env v

/-- Source helper `normalize`. -/
def normalize (env : MathEnv) (v : Vec2) : Vec2 :=
  { x := v.x / normalizeLen env v, y := v.y / normalizeLen env v }

/-- Source helper `lerp`. -/
def lerp (a b t : ℚ) : ℚ := a + (b - a) * t

/-- Source helper `rectCircleCollide` (circle versus axis-aligned box). -/
def rectCircleCollide (rectX rectY rectW rectH circleX circleY radius : ℚ) : Bool :=
  let closestX := clamp circleX rectX (rectX + rectW)
  let closestY := clamp circleY rectY (rectY + rectH)
  let dx := circleX - closestX
  let dy := circleY - closestY
  decide (dx * dx + dy * dy ≤ radius * radius)

/-- Source helper `rectRectOverlap` (AABB overlap, strict inequalities). -/
def rectRectOverlap (ax ay aw ah bx by_ bw bh : ℚ) : Bool :=
  decide (ax < bx + bw) && decide (ax + aw > bx) &&
  decide (ay < by_ + bh) && decide (ay + ah > by_)

/-- Movement-key snapshot: `left = arrowleft || a`, and so on (source reads
the pressed-key set through exactly these four disjunctions). -/
structure Keys where
  left : Bool
  right : Bool
  up : Bool
  down : Bool
deriving DecidableEq

/-- Source mode union `"menu" | "playing" | "gameover"`. -/
inductive Mode where
  | menu
  | playing
  | gameover
deriving DecidableEq

/-- Source event union `null | "meteor"`. -/
inductive EventKind where
  | meteor
deriving DecidableEq

/-- The complete mutable simulation state: one field per `useRef`/`useState`
cell of the core (render-only toggles such as `hideHUDRef`,
`highContrastRef`, `reducedMotionRef` and `flashTimerRef` are omitted, they
are never read by the update logic).  `randFn`/`randIdx` model the stream of
`Math.random()` results. -/
structure GameState where
  score : ℤ
  mode : Mode
  rocket : Rocket
  bullets : List Bullet
  enemies : List Enemy
  particles : List Particle
  spawnAccumulator : ℚ
  spawnInterval : ℚ
  difficultyTimer : ℚ
  screenShake : ℚ
  powerUps : List PowerUp
  scoreOrbs : List ScoreOrb
  wells : List GravityWell
  beams : List Beam
  powerupSpawnTimer : ℚ
  wellSpawnTimer : ℚ
  bossTimer : ℚ
  eventTimer : ℚ
  eventActive : Option EventKind
  eventTimeLeft : ℚ
  meteorSpawnAcc : ℚ
  hasShield : Bool
  shieldTimer : ℚ
  slowMo : ℚ
  magnet : ℚ
  homing : ℚ
  spread : ℚ
  laser : ℚ
  multiplier : ℚ
  comboTimer : ℚ
  pause : Bool
  currentThemeIdx : ℕ
  nextThemeIdx : ℕ
  themeBlend : ℚ
  themeTimer : ℚ
  themeDuration : ℚ
  themeTransitioning : Bool
  keys : Keys
  aimPosition : Option Vec2
  randFn : ℕ → ℚ
  randIdx : ℕ

/-- The `k`-th `Math.random()` draw a function makes from state `s`: the
stream value at position `randIdx + k`. -/
def rand0 (s : GameState) (k : ℕ) : ℚ := s.randFn (s.randIdx + k)

/-- Advance the random stream past `n` consumed draws. -/
def bump (n : ℕ) (s : GameState) : GameState := { s with randIdx := s.randIdx + n }

/-- `n` consecutive draws starting at offset `k`, each mapped through `g`
(models `new Array(n).fill(0).map(() => g(Math.random()))`). -/
def randSeq (g : ℚ → ℚ) (n k : ℕ) (s : GameState) : List ℚ :=
  (List.range n).map (fun i => g (rand0 s (k + i)))

/-- Append to an entity list; `push` appends at the end of a JS array. -/
def pushBullet (b : Bullet) (s : GameState) : GameState :=
  { s with bullets := s.bullets ++ [b] }

def pushEnemy (e : Enemy) (s : GameState) : GameState :=
  { s with enemies := s.enemies ++ [e] }

def pushParticle (p : Particle) (s : GameState) : GameState :=
  { s with particles := s.particles ++ [p] }

def pushOrb (o : ScoreOrb) (s : GameState) : GameState :=
  { s with scoreOrbs := s.scoreOrbs ++ [o] }

def pushBeam (b : Beam) (s : GameState) : GameState :=
  { s with beams := s.beams ++ [b] }

/-- Source `pickNextThemeIndex`: redraw `floor(random()*len)` while it equals
`exclude`.  The `while` loop is modelled with fuel; on exhaustion the
excluded index itself is returned (the source would still be looping). -/
def pickLoop (exclude : ℕ) : ℕ → ℕ → GameState → ℕ × GameState
  | _, 0, s => (exclude, s)
  | idx, fuel + 1, s =>
    if idx = exclude then
      pickLoop exclude (Int.toNat ⌊rand0 s 0 * (THEMES.length : ℚ)⌋) fuel (bump 1 s)
    else (idx, s)

def pickNextThemeIndex (exclude : ℕ) (s : GameState) : ℕ × GameState :=
  if THEMES.length ≤ 1 then (exclude, s)
  else pickLoop exclude exclude 1000000 s

/-- Source `getEffectiveThemeBlend`: the pair of themes and the effective
blend fraction (clamped while transitioning, `0` otherwise). -/
def getEffectiveThemeBlend (s : GameState) : EnvironmentTheme × EnvironmentTheme × ℚ :=
  (themeAt s.currentThemeIdx, themeAt s.nextThemeIdx,
    if s.themeTransitioning then clamp s.themeBlend 0 1 else 0)

/-- The theme record `spawnEnemy` reads its gameplay parameters from:
`blend > 0 ? themeB : themeA`. -/
def spawnTheme (s : GameState) : EnvironmentTheme :=
  let (themeA, themeB, blend) := getEffectiveThemeBlend s
  if 0 < blend then themeB else themeA

/-- Source `resetGame` (the parts acting on simulation state; the container
rectangle becomes the `width`/`height` parameters). -/
def resetGame (width height : ℚ) (s : GameState) : GameState :=
  { s with
    score := 0
    bullets := []
    enemies := []
    particles := []
    spawnAccumulator := 0
    spawnInterval := 900
    difficultyTimer := 0
    screenShake := 0
    rocket := { s.rocket with position :=
      { x := width / 2 - s.rocket.width / 2, y := height / 2 - s.rocket.height / 2 } } }

/-- Source `startGame`: reset and enter `playing`. -/
def startGame (width height : ℚ) (s : GameState) : GameState :=
  { resetGame width height s with mode := Mode.playing }

/-- The aim point `shootBullet` uses: mouse position, or straight up from the
ship center when none is known. -/
def shootAim (s : GameState) : Vec2 :=
  let center : Vec2 :=
    { x := s.rocket.position.x + s.rocket.width / 2
    , y := s.rocket.position.y + s.rocket.height / 2 }
  s.aimPosition.getD { x := center.x, y := center.y - 1 }

/-- The normalized firing direction of `shootBullet`. -/
def shootDirection (env : MathEnv) (s : GameState) : Vec2 :=
  let center : Vec2 :=
    { x := s.rocket.position.x + s.rocket.width / 2
    , y := s.rocket.position.y + s.rocket.height / 2 }
  let aim := shootAim s
  normalize env { x := aim.x - center.x, y := aim.y - center.y }

/-- One muzzle-flash particle; consumes the five `Math.random()` draws of the
source's object literal in order. -/
def muzzleParticle (origin direction : Vec2) (s : GameState) : GameState :=
  pushParticle
    { position := { x := origin.x + direction.x * 4, y := origin.y + direction.y * 4 }
    , velocity :=
      { x := direction.x * (200 + rand0 s 0 * 200) + (rand0 s 1 - 0.5) * 80
      , y := direction.y * (200 + rand0 s 2 * 200) + (rand0 s 3 - 0.5) * 80 }
    , life := 0
    , maxLife := 0.18 + rand0 s 4 * 0.12
    , sizeStart := 4
    , sizeEnd := 0
    , colorStart := "rgba(255,210,120,0.9)"
    , colorEnd := "rgba(255,120,40,0.0)"
    , additive := true } (bump 5 s)

/-- The 8-iteration muzzle-flash loop of `shootBullet`. -/
def muzzleLoop (origin direction : Vec2) : ℕ → GameState → GameState
  | 0, s => s
  | n + 1, s => muzzleLoop origin direction n (muzzleParticle origin direction s)

/-- Source `shootBullet`. -/
def shootBullet (env : MathEnv) (s : GameState) : GameState :=
  let direction := shootDirection env s
  let center : Vec2 :=
    { x := s.rocket.position.x + s.rocket.width / 2
    , y := s.rocket.position.y + s.rocket.height / 2 }
  let noseOffset := s.rocket.width * 0.52
  let origin : Vec2 :=
    { x := center.x + direction.x * noseOffset
    , y := center.y + direction.y * noseOffset }
  if 0 < s.laser then
    pushBeam { origin := origin, direction := direction, width := 6, ttl := 0.12 } s
  else
    let makeBullet := fun (dir : Vec2) (st : GameState) =>
      pushBullet { x := origin.x, y := origin.y, radius := 3.2, speed := 1000
                 , direction := dir } st
    let s :=
      if 0 < s.spread then
        let ang := env.atan2 direction.y direction.x
        let off : ℚ := 0.18
        let s := makeBullet { x := env.cos (ang - off), y := env.sin (ang - off) } s
        let s := makeBullet direction s
        makeBullet { x := env.cos (ang + off), y := env.sin (ang + off) } s
      else makeBullet direction s
    muzzleLoop origin direction 8 s

/-- Source `spawnEnemy`.  The draws, in source order: edge (0), edge-relative
coordinate (1), kind (2); then per kind — asteroid: base (3), segment count
(4), the segment radii (5 ‥ 4 + segments), hp bonus (5 + segments); ufo:
width (3), height (4) — then target jitter, speed, rotation and spin. -/
def spawnEnemy (env : MathEnv) (width height : ℚ) (s : GameState) : GameState :=
  let theme := spawnTheme s
  let edge := Int.toNat ⌊rand0 s 0 * 4⌋
  let rp := rand0 s 1
  let x : ℚ := if edge = 0 then rp * width
    else if edge = 1 then width + 20
    else if edge = 2 then rp * width
    else -20
  let y : ℚ := if edge = 0 then -20
    else if edge = 1 then rp * height
    else if edge = 2 then height + 20
    else rp * height
  let kind : EnemyKind :=
    if rand0 s 2 < theme.ufoChance then EnemyKind.ufo else EnemyKind.asteroid
  let base := 20 + rand0 s 3 * 18
  let segments := 10 + Int.toNat ⌊rand0 s 4 * 5⌋
  let dims : ℚ × ℚ × ℚ × Option (List ℚ) × ℕ :=
    if kind = EnemyKind.asteroid then
      (base * 2, base * 2, 2 + (if rand0 s (5 + segments) < 0.5 then 1 else 0),
        some (randSeq (fun r => base + (r * 10 - 5)) segments 5 s), 6 + segments)
    else
      (52 + rand0 s 3 * 12, 26 + rand0 s 4 * 6, 2, none, 5)
  let enemyWidth := dims.1
  let enemyHeight := dims.2.1
  let hp := dims.2.2.1
  let asteroidRadii := dims.2.2.2.1
  let off := dims.2.2.2.2
  let rocket := s.rocket
  let target : Vec2 :=
    { x := rocket.position.x + rocket.width / 2 + (rand0 s off * 80 - 40)
    , y := rocket.position.y + rocket.height / 2 + (rand0 s (off + 1) * 80 - 40) }
  let dir := normalize env { x := target.x - x, y := target.y - y }
  let speed := (90 + rand0 s (off + 2) * 140) * theme.enemySpeedMultiplier
  pushEnemy
    { position := { x := x - enemyWidth / 2, y := y - enemyHeight / 2 }
    , width := enemyWidth
    , height := enemyHeight
    , velocity := { x := dir.x * speed, y := dir.y * speed }
    , kind := kind
    , rotation := rand0 s (off + 3) * env.pi * 2
    , spin := (rand0 s (off + 4) - 0.5) * 1.6
    , hp := hp
    , asteroidRadii := asteroidRadii } (bump (off + 5) s)

/-- One iteration of the `createExplosion` particle loop. -/
def explosionParticle (env : MathEnv) (x y : ℚ) (kind : EnemyKind) (s : GameState) : GameState :=
  let ang := rand0 s 0 * env.pi * 2
  let spd := 120 + rand0 s 1 * 240
  let vel : Vec2 := { x := env.cos ang * spd, y := env.sin ang * spd }
  let life := 0.5 + rand0 s 2 * 0.4
  if kind = EnemyKind.asteroid then
    pushParticle
      { position := { x := x, y := y }
      , velocity := { x := vel.x * 0.3, y := vel.y * 0.3 }
      , life := 0, maxLife := life + 0.2
      , sizeStart := 2 + rand0 s 4 * 2, sizeEnd := 0
      , colorStart := "rgba(200,200,200,0.9)"
      , colorEnd := "rgba(180,180,180,0.0)"
      , additive := false }
      (pushParticle
        { position := { x := x, y := y }
        , velocity := { x := vel.x * 0.8, y := vel.y * 0.8 }
        , life := 0, maxLife := life
        , sizeStart := 4 + rand0 s 3 * 3, sizeEnd := 0
        , colorStart := "rgba(255,185,90,0.95)"
        , colorEnd := "rgba(255,80,30,0.0)"
        , additive := true } (bump 5 s))
  else
    pushParticle
      { position := { x := x, y := y }
      , velocity := { x := vel.x, y := vel.y }
      , life := 0, maxLife := life
      , sizeStart := 3.5 + rand0 s 3 * 2.5, sizeEnd := 0
      , colorStart := "rgba(140,220,255,0.95)"
      , colorEnd := "rgba(80,160,255,0.0)"
      , additive := true } (bump 4 s)

def explosionLoop (env : MathEnv) (x y : ℚ) (kind : EnemyKind) : ℕ → GameState → GameState
  | 0, s => s
  | n + 1, s => explosionLoop env x y kind n (explosionParticle env x y kind s)

/-- Source `createExplosion`. -/
def createExplosion (env : MathEnv) (x y : ℚ) (kind : EnemyKind) (s : GameState) : GameState :=
  let count := if kind = EnemyKind.asteroid then 30 else 24
  let s := explosionLoop env x y kind count s
  { s with screenShake := max s.screenShake 6 }

/-- The score-orb loop of `onEnemyDestroyed`. -/
def orbLoop (env : MathEnv) (cx cy : ℚ) : ℕ → GameState → GameState
  | 0, s => s
  | n + 1, s =>
    orbLoop env cx cy n
      (pushOrb
        { position := { x := cx, y := cy }
        , velocity := { x := env.cos (rand0 s 0 * env.pi * 2) * (60 + rand0 s 1 * 120)
                      , y := env.sin (rand0 s 0 * env.pi * 2) * (60 + rand0 s 1 * 120) }
        , value := 1 } (bump 2 s))

/-- Source `onEnemyDestroyed`: scoring, combo bump, orb burst, explosion. -/
def onEnemyDestroyed (env : MathEnv) (enemy : Enemy) (s : GameState) : GameState :=
  let cx := enemy.position.x + enemy.width / 2
  let cy := enemy.position.y + enemy.height / 2
  let s := { s with score := s.score + max 1 ⌊s.multiplier⌋ }
  let s := { s with multiplier := min 5 (s.multiplier + 0.2), comboTimer := 0 }
  let orbs := 2 + Int.toNat ⌊rand0 s 0 * 3⌋
  let s := orbLoop env cx cy orbs (bump 1 s)
  createExplosion env cx cy enemy.kind s

/-- One iteration of the thruster particle loop. -/
def thrusterParticle (rocket : Rocket) (dir : Vec2) (s : GameState) : GameState :=
  let center : Vec2 :=
    { x := rocket.position.x + rocket.width / 2
    , y := rocket.position.y + rocket.height / 2 }
  let jitter := (rand0 s 0 - 0.5) * 0.6
  let back : Vec2 :=
    { x := center.x - dir.x * (rocket.width * 0.6)
    , y := center.y - dir.y * (rocket.height * 0.6) }
  pushParticle
    { position := { x := back.x + -dir.y * (rand0 s 1 * 6 - 3)
                  , y := back.y + dir.x * (rand0 s 2 * 6 - 3) }
    , velocity :=
      { x := -dir.x * (120 + rand0 s 3 * 120) + jitter * 40
      , y := -dir.y * (120 + rand0 s 4 * 120) + jitter * 40 }
    , life := 0
    , maxLife := 0.35 + rand0 s 5 * 0.2
    , sizeStart := 3 + rand0 s 6 * 2, sizeEnd := 0
    , colorStart := "rgba(255,220,140,0.9)"
    , colorEnd := "rgba(255,120,40,0.0)"
    , additive := true } (bump 7 s)

def thrusterLoop (rocket : Rocket) (dir : Vec2) : ℕ → GameState → GameState
  | 0, s => s
  | n + 1, s => thrusterLoop rocket dir n (thrusterParticle rocket dir s)

/-- Source `spawnThruster`. -/
def spawnThruster (env : MathEnv) (dt : ℚ) (s : GameState) : GameState :=
  let rocket := s.rocket
  let k := s.keys
  let mvx : ℚ := if k.left && !k.right then -1 else if k.right && !k.left then 1 else 0
  let mvy : ℚ := if k.up && !k.down then -1 else if k.down && !k.up then 1 else 0
  let moving := mvx ≠ 0 ∨ mvy ≠ 0
  let dir := if moving then normalize env { x := mvx, y := mvy } else { x := 0, y := 1 }
  let rate : ℚ := if moving then 90 else 45
  let count := Int.toNat ⌊rate * dt⌋
  thrusterLoop rocket dir count s

/-- Update step 1: resolve input into movement, integrate the ship, clamp to
the viewport. -/
def moveRocket (env : MathEnv) (dt width height : ℚ) (s : GameState) : GameState :=
  let k := s.keys
  let moveX : ℚ := if k.left && !k.right then -1 else if k.right && !k.left then 1 else 0
  let moveY : ℚ := if k.up && !k.down then -1 else if k.down && !k.up then 1 else 0
  let rocket := s.rocket
  let rocket :=
    if moveX ≠ 0 ∨ moveY ≠ 0 then
      let n := normalize env { x := moveX, y := moveY }
      { rocket with position :=
        { x := rocket.position.x + n.x * rocket.speed * dt
        , y := rocket.position.y + n.y * rocket.speed * dt } }
    else rocket
  { s with rocket := { rocket with position :=
    { x := clamp rocket.position.x 0 (width - rocket.width)
    , y := clamp rocket.position.y 0 (height - rocket.height) } } }

/-- Update step 2: theme rotation (automatic transition start, blend advance,
commit). -/
def themeStep (dt : ℚ) (s : GameState) : GameState :=
  let s := { s with themeTimer := s.themeTimer + dt }
  let s :=
    if s.themeTransitioning = false ∧ s.themeDuration < s.themeTimer then
      let (ni, s') := pickNextThemeIndex s.currentThemeIdx s
      { s' with themeTransitioning := true, themeBlend := 0, themeTimer := 0
              , nextThemeIdx := ni }
    else s
  if s.themeTransitioning then
    let blend := s.themeBlend + dt / 4
    if 1 ≤ blend then
      let cur := s.nextThemeIdx
      let (ni, s') := pickNextThemeIndex cur s
      { s' with themeBlend := 0, themeTransitioning := false
              , currentThemeIdx := cur, nextThemeIdx := ni }
    else { s with themeBlend := blend }
  else s

/-- Update step 3: combo decay after 2.5 s idle. -/
def comboStep (dt : ℚ) (s : GameState) : GameState :=
  let s := { s with comboTimer := s.comboTimer + dt }
  if 2.5 < s.comboTimer then { s with multiplier := max 1 (s.multiplier - dt * 0.4) }
  else s

/-- Update step: difficulty ramp (interval tightens by 40 ms every 5 s, floor
220 ms). -/
def difficultyStep (dt : ℚ) (s : GameState) : GameState :=
  let t := s.difficultyTimer + dt * 1000
  if 5000 < t then { s with difficultyTimer := 0, spawnInterval := max 220 (s.spawnInterval - 40) }
  else { s with difficultyTimer := t }

/-- Whether an enemy is one of the boss kinds. -/
def isBoss (e : Enemy) : Bool :=
  match e.kind with
  | EnemyKind.bossUfo => true
  | EnemyKind.bossGolem => true
  | _ => false

/-- The spawn `while` loop: drain the accumulator by `step` per slot, spawning
one regular enemy per slot unless a boss is alive.  Fuel-based model of the
source loop; the caller passes fuel exceeding the iteration count. -/
def spawnDrain (env : MathEnv) (width height : ℚ) (bossAlive : Bool) (step : ℚ) :
    ℕ → ℚ → GameState → ℚ × GameState
  | 0, acc, s => (acc, s)
  | fuel + 1, acc, s =>
    if step ≤ acc then
      spawnDrain env width height bossAlive step fuel (acc - step)
        (if bossAlive then s else spawnEnemy env width height s)
    else (acc, s)

/-- Update step 4: regular-enemy spawning. -/
def spawningStep (env : MathEnv) (dt width height : ℚ) (bossAlive : Bool)
    (s : GameState) : GameState :=
  let acc := s.spawnAccumulator + dt * 1000
  let step := if bossAlive then s.spawnInterval * 1.8 else s.spawnInterval
  let fuel := Int.toNat ⌈acc / step⌉ + 1
  let (acc', s') := spawnDrain env width height bossAlive step fuel acc s
  { s' with spawnAccumulator := acc' }

/-- Update step 5: boss waves (every 45 s while none alive, 50/50 kind). -/
def bossStep (env : MathEnv) (dt width : ℚ) (bossAlive : Bool) (s : GameState) : GameState :=
  let s := { s with bossTimer := s.bossTimer + dt }
  if bossAlive = false ∧ (45 : ℚ) < s.bossTimer then
    let s := { s with bossTimer := 0 }
    if rand0 s 0 < 0.5 then
      pushEnemy
        { position := { x := width / 2 - 120, y := -100 }
        , width := 240, height := 120
        , velocity := { x := (rand0 s 1 - 0.5) * 30, y := 40 }
        , kind := EnemyKind.bossUfo
        , rotation := 0, spin := 0.2, hp := 50, asteroidRadii := none } (bump 2 s)
    else
      let base : ℚ := 80
      let segments : ℕ := 14
      pushEnemy
        { position := { x := rand0 s 15 * (width - base * 2), y := -base * 2 }
        , width := base * 2, height := base * 2
        , velocity := { x := (rand0 s 16 - 0.5) * 20, y := 35 }
        , kind := EnemyKind.bossGolem
        , rotation := rand0 s 17 * env.pi * 2, spin := (rand0 s 18 - 0.5) * 0.6
        , hp := 60
        , asteroidRadii := some (randSeq (fun r => base + (r * 24 - 12)) segments 1 s) }
        (bump 19 s)
  else s

/-- The meteor-shower `while` loop (one small fast asteroid per 180 ms of
accumulated event time); fuel-based like `spawnDrain`. -/
def meteorDrain (env : MathEnv) (width interval : ℚ) :
    ℕ → ℚ → GameState → ℚ × GameState
  | 0, acc, s => (acc, s)
  | fuel + 1, acc, s =>
    if interval < acc then
      let w := 18 + rand0 s 0 * 10
      let h := 14 + rand0 s 1 * 8
      let x := rand0 s 2 * width
      let s' := pushEnemy
        { position := { x := x, y := -h - 10 }
        , width := w, height := h
        , velocity := { x := (rand0 s 3 - 0.5) * 80, y := 260 + rand0 s 4 * 80 }
        , kind := EnemyKind.asteroid
        , rotation := rand0 s 5 * env.pi * 2, spin := (rand0 s 6 - 0.5) * 2.0
        , hp := 1
        , asteroidRadii := some [w / 2, w / 2.4, w / 2.1, w / 2.6, w / 2.2, w / 2.5] }
        (bump 7 s)
      meteorDrain env width interval fuel (acc - interval) s'
    else (acc, s)

/-- Update step 6: the meteor-shower hazard event. -/
def eventStep (env : MathEnv) (dt width : ℚ) (s : GameState) : GameState :=
  let s := { s with eventTimer := s.eventTimer + dt }
  let s :=
    if s.eventActive = none ∧ (25 : ℚ) < s.eventTimer then
      { s with eventActive := some EventKind.meteor, eventTimeLeft := 8
             , eventTimer := 0, meteorSpawnAcc := 0 }
    else s
  if s.eventActive = some EventKind.meteor then
    let s := { s with eventTimeLeft := s.eventTimeLeft - dt }
    let acc := s.meteorSpawnAcc + dt * 1000
    let meteorInterval : ℚ := 180
    let fuel := Int.toNat ⌈acc / meteorInterval⌉ + 1
    let (acc', s') := meteorDrain env width meteorInterval fuel acc s
    let s := { s' with meteorSpawnAcc := acc' }
    if s.eventTimeLeft ≤ 0 then { s with eventActive := none } else s
  else s

/-- Update step 7: gravity wells drift. -/
def wellsDrift (dt : ℚ) (s : GameState) : GameState :=
  { s with wells := s.wells.map (fun w =>
    { w with position := { x := w.position.x + w.drift.x * dt
                         , y := w.position.y + w.drift.y * dt } }) }

/-- The gravity-well pull applied to a single enemy (linear falloff inside a
well's radius). -/
def gravityPull (env : MathEnv) (effDt : ℚ) (wells : List GravityWell) (e : Enemy) : Enemy :=
  wells.foldl (fun e w =>
    let tox := w.position.x - (e.position.x + e.width / 2)
    let toy := w.position.y - (e.position.y + e.height / 2)
    let d := if env.hyp tox toy = 0 then 1 else env.hyp tox toy
    if d < w.radius then
      let nx := tox / d
      let ny := toy / d
      let pull := (1 - d / w.radius) * w.strength
      { e with velocity := { x := e.velocity.x + nx * pull * effDt
                           , y := e.velocity.y + ny * pull * effDt } }
    else e) e

/-- Update step 8: enemy motion integration, spin, gravity influence. -/
def enemiesStep (env : MathEnv) (effDt : ℚ) (s : GameState) : GameState :=
  { s with enemies := s.enemies.map (fun e =>
    let e := { e with
      position := { x := e.position.x + e.velocity.x * effDt
                  , y := e.position.y + e.velocity.y * effDt },
      rotation := e.rotation + e.spin * effDt }
    gravityPull env effDt s.wells e) }

/-- The nearest enemy to a point (first minimum wins, as the source's strict
`<` comparison does). -/
def nearestEnemy (es : List Enemy) (bx by_ : ℚ) : Option Enemy :=
  (es.foldl (fun (acc : Option Enemy × Option ℚ) e =>
    let ex := e.position.x + e.width / 2
    let ey := e.position.y + e.height / 2
    let d := (ex - bx) * (ex - bx) + (ey - by_) * (ey - by_)
    match acc.2 with
    | none => (some e, some d)
    | some bd => if d < bd then (some e, some d) else acc) (none, none)).1

/-- Update step 9: bullet motion with the optional homing steer. -/
def bulletsLoop (env : MathEnv) (effDt : ℚ) (enemies : List Enemy) :
    List Bullet → GameState → List Bullet × GameState
  | [], s => ([], s)
  | b :: bs, s =>
    let convert := 0 < s.homing ∧ b.homing = false
    let b := if convert then { b with homing := decide (rand0 s 0 < 0.5) } else b
    let s := if convert then bump 1 s else s
    let b :=
      if b.homing then
        match nearestEnemy enemies b.x b.y with
        | some best =>
          let ex := best.position.x + best.width / 2
          let ey := best.position.y + best.height / 2
          let desired := normalize env { x := ex - b.x, y := ey - b.y }
          let dx := lerp b.direction.x desired.x 0.08
          let dy := lerp b.direction.y desired.y 0.08
          let L := if env.hyp dx dy = 0 then 1 else env.hyp dx dy
          { b with direction := { x := dx / L, y := dy / L } }
        | none => b
      else b
    let b := { b with x := b.x + b.direction.x * effDt * b.speed
                    , y := b.y + b.direction.y * effDt * b.speed }
    let (rest, s) := bulletsLoop env effDt enemies bs s
    (b :: rest, s)

def bulletsStep (env : MathEnv) (effDt : ℚ) (s : GameState) : GameState :=
  let (bs, s') := bulletsLoop env effDt s.enemies s.bullets s
  { s' with bullets := bs }

/-- Whether a beam's damage capsule contains an enemy's center (perpendicular
distance below `width/2 + 2`, forward projection above `-20`). -/
def beamHits (b : Beam) (e : Enemy) : Bool :=
  let nx := -b.direction.y
  let ny := b.direction.x
  let half := b.width / 2 + 2
  let ex := e.position.x + e.width / 2
  let ey := e.position.y + e.height / 2
  let tox := ex - b.origin.x
  let toy := ey - b.origin.y
  let distSide := |tox * nx + toy * ny|
  let along := tox * b.direction.x + toy * b.direction.y
  decide (distSide < half ∧ -20 < along)

/-- Apply one beam's flat 0.8 damage to every enemy in its capsule. -/
def beamDamage (b : Beam) (es : List Enemy) : List Enemy :=
  es.map (fun e => if beamHits b e then { e with hp := e.hp - 0.8 } else e)

/-- Update step 10: beam ttl decrement, survivor collection, damage. -/
def beamsLoop (dt : ℚ) : List Beam → List Enemy → List Beam × List Enemy
  | [], es => ([], es)
  | b :: bs, es =>
    let ttl' := b.ttl - dt
    let rest := beamsLoop dt bs (beamDamage b es)
    (if 0 < ttl' then { b with ttl := ttl' } :: rest.1 else rest.1, rest.2)

def beamsStep (dt : ℚ) (s : GameState) : GameState :=
  let (survivors, es) := beamsLoop dt s.beams s.enemies
  { s with beams := survivors, enemies := es }

/-- The spark particle pushed on a bullet impact. -/
def impactParticle (bx by_ : ℚ) (s : GameState) : GameState :=
  pushParticle
    { position := { x := bx, y := by_ }
    , velocity := { x := (rand0 s 0 - 0.5) * 120, y := (rand0 s 1 - 0.5) * 120 }
    , life := 0, maxLife := 0.25
    , sizeStart := 3, sizeEnd := 0
    , colorStart := "rgba(255,200,120,0.9)"
    , colorEnd := "rgba(255,100,30,0.0)"
    , additive := true } (bump 2 s)

/-- The inner bullet loop of the bullet-enemy collision pass: scan the bullet
list for one enemy, consuming each colliding bullet (splice + `i--`) and
applying 1 damage per hit; `break` on destruction.  Returns the enemy with
`true` when it survived, `false` when it was destroyed, plus the bullets not
consumed. -/
def bulletHitLoop (env : MathEnv) (e : Enemy) :
    List Bullet → GameState → (Bool × Enemy) × List Bullet × GameState
  | [], s => ((true, e), [], s)
  | b :: bs, s =>
    if rectCircleCollide e.position.x e.position.y e.width e.height b.x b.y b.radius then
      let s := impactParticle b.x b.y s
      let e' := { e with hp := e.hp - 1 }
      if e'.hp ≤ 0 then ((false, e'), bs, onEnemyDestroyed env e' s)
      else
        let (oe, rem, s') := bulletHitLoop env e' bs s
        (oe, rem, s')
    else
      let (oe, rem, s') := bulletHitLoop env e bs s
      (oe, b :: rem, s')

/-- The outer enemy loop of the collision pass; returns survivors, destroyed
enemies, remaining bullets and the threaded state. -/
def enemiesBulletsLoop (env : MathEnv) :
    List Enemy → List Bullet → GameState → List Enemy × List Enemy × List Bullet × GameState
  | [], bs, s => ([], [], bs, s)
  | e :: es, bs, s =>
    let (oe, bs', s') := bulletHitLoop env e bs s
    let (surv, dest, bs'', s'') := enemiesBulletsLoop env es bs' s'
    if oe.1 then (oe.2 :: surv, dest, bs'', s'')
    else (surv, oe.2 :: dest, bs'', s'')

/-- Update step 11: resolve bullet-enemy collisions.  The first component is
the list of enemies destroyed this pass (exactly those passed to
`onEnemyDestroyed`). -/
def bulletCollisions (env : MathEnv) (s : GameState) : List Enemy × GameState :=
  let (surv, dest, bs, s') := enemiesBulletsLoop env s.enemies s.bullets s
  (dest, { s' with enemies := surv, bullets := bs })

/-- Update step 12: prune off-screen bullets and enemies outside the 80-unit
margin. -/
def pruneStep (width height : ℚ) (s : GameState) : GameState :=
  { s with
    bullets := s.bullets.filter (fun b =>
      decide (0 ≤ b.x + b.radius) && decide (b.x - b.radius ≤ width) &&
      decide (0 ≤ b.y + b.radius) && decide (b.y - b.radius ≤ height))
    enemies := s.enemies.filter (fun e =>
      decide (-80 ≤ e.position.x + e.width) && decide (e.position.x ≤ width + 80) &&
      decide (-80 ≤ e.position.y + e.height) && decide (e.position.y ≤ height + 80)) }

/-- Update step 13: score orbs (magnet steering, motion, pickup). -/
def orbsLoop (env : MathEnv) (effDt : ℚ) (rocket : Rocket) (magnetActive : Bool) :
    List ScoreOrb → GameState → List ScoreOrb × GameState
  | [], s => ([], s)
  | orb :: os, s =>
    let orb :=
      if magnetActive then
        let cx := rocket.position.x + rocket.width / 2
        let cy := rocket.position.y + rocket.height / 2
        let dir := normalize env { x := cx - orb.position.x, y := cy - orb.position.y }
        { orb with velocity := { x := lerp orb.velocity.x (dir.x * 220) 0.08
                               , y := lerp orb.velocity.y (dir.y * 220) 0.08 } }
      else orb
    let orb := { orb with position := { x := orb.position.x + orb.velocity.x * effDt
                                      , y := orb.position.y + orb.velocity.y * effDt } }
    let dx := orb.position.x - (rocket.position.x + rocket.width / 2)
    let dy := orb.position.y - (rocket.position.y + rocket.height / 2)
    if dx * dx + dy * dy < 26 * 26 then
      let s := { s with score := s.score + orb.value }
      orbsLoop env effDt rocket magnetActive os s
    else
      let (rest, s') := orbsLoop env effDt rocket magnetActive os s
      (orb :: rest, s')

def orbsStep (env : MathEnv) (effDt : ℚ) (s : GameState) : GameState :=
  let (os, s') := orbsLoop env effDt s.rocket (decide (0 < s.magnet)) s.scoreOrbs s
  { s' with scoreOrbs := os }

/-- Whether the ship collects a power-up (distance below the pickup radius). -/
def collects (rocket : Rocket) (p : PowerUp) : Bool :=
  let dx := p.position.x - (rocket.position.x + rocket.width / 2)
  let dy := p.position.y - (rocket.position.y + rocket.height / 2)
  let r := p.radius + max rocket.width rocket.height * 0.25
  decide (dx * dx + dy * dy < r * r)

/-- The effect a collected power-up applies: each duration is set (not added)
to its fixed value. -/
def applyPowerUp (t : PowerUpType) (s : GameState) : GameState :=
  match t with
  | PowerUpType.shield => { s with hasShield := true, shieldTimer := 8 }
  | PowerUpType.slowmo => { s with slowMo := 6 }
  | PowerUpType.magnet => { s with magnet := 10 }
  | PowerUpType.homing => { s with homing := 10 }
  | PowerUpType.spread => { s with spread := 10 }
  | PowerUpType.laser => { s with laser := 6 }

/-- Update step 14: power-up ttl decrement, collection, expiry. -/
def pupLoop (dt : ℚ) (rocket : Rocket) :
    List PowerUp → GameState → List PowerUp × GameState
  | [], s => ([], s)
  | p :: ps, s =>
    let p := { p with ttl := p.ttl - dt }
    if collects rocket p then
      pupLoop dt rocket ps (applyPowerUp p.type s)
    else if 0 < p.ttl then
      let (rest, s') := pupLoop dt rocket ps s
      (p :: rest, s')
    else
      pupLoop dt rocket ps s

def powerUpsStep (dt : ℚ) (s : GameState) : GameState :=
  let (ps, s') := pupLoop dt s.rocket s.powerUps s
  { s' with powerUps := ps }

/-- Update step 15: timed-effect decrement (each guarded by `> 0`); the shield
flag clears when its timer crosses zero. -/
def timersStep (dt : ℚ) (s : GameState) : GameState :=
  let s :=
    if 0 < s.shieldTimer then
      let t := s.shieldTimer - dt
      { s with shieldTimer := t, hasShield := if t ≤ 0 then false else s.hasShield }
    else s
  let s := if 0 < s.magnet then { s with magnet := s.magnet - dt } else s
  let s := if 0 < s.homing then { s with homing := s.homing - dt } else s
  let s := if 0 < s.spread then { s with spread := s.spread - dt } else s
  if 0 < s.laser then { s with laser := s.laser - dt } else s

/-- Update step 16: particle aging, integration, damping, pruning. -/
def particlesStep (dt effDt : ℚ) (s : GameState) : GameState :=
  let moved := s.particles.map (fun p =>
    { p with
      life := p.life + dt,
      position := { x := p.position.x + p.velocity.x * effDt
                  , y := p.position.y + p.velocity.y * effDt },
      velocity := { x := p.velocity.x * 0.98, y := p.velocity.y * 0.98 } })
  { s with particles := moved.filter (fun p => decide (p.life ≤ p.maxLife)) }

/-- Update step 17 (second half): geometric screen-shake decay. -/
def shakeStep (s : GameState) : GameState :=
  if 0 < s.screenShake then { s with screenShake := s.screenShake * 0.9 } else s

/-- Update step 18: ship-enemy collisions.  A shielded hit consumes the shield
and destroys the enemy; an unshielded hit sets game over and `break`s,
dropping the not-yet-scanned tail, exactly as the source loop does. -/
def shipCollide (env : MathEnv) (rocket : Rocket) :
    List Enemy → GameState → List Enemy × GameState
  | [], s => ([], s)
  | e :: es, s =>
    if rectRectOverlap rocket.position.x rocket.position.y rocket.width rocket.height
        e.position.x e.position.y e.width e.height then
      if s.hasShield then
        let s := { s with hasShield := false, shieldTimer := 0 }
        shipCollide env rocket es (onEnemyDestroyed env e s)
      else ([], { s with mode := Mode.gameover })
    else
      let (surv, s') := shipCollide env rocket es s
      (e :: surv, s')

def shipCollisionStep (env : MathEnv) (s : GameState) : GameState :=
  let (surv, s') := shipCollide env s.rocket s.enemies s
  { s' with enemies := surv }

/-- Source `update(dt, width, height)`: the whole per-tick orchestrator, in
source order. -/
def update (env : MathEnv) (dt width height : ℚ) (s : GameState) : GameState :=
  if s.mode ≠ Mode.playing then s
  else if s.pause then s
  else
    let s := moveRocket env dt width height s
    let s := themeStep dt s
    let s := comboStep dt s
    let s := difficultyStep dt s
    let bossAlive := s.enemies.any isBoss
    let s := spawningStep env dt width height bossAlive s
    let s := bossStep env dt width bossAlive s
    let s := eventStep env dt width s
    let s := wellsDrift dt s
    let effDt := if 0 < s.slowMo then dt * 0.6 else dt
    let s := if 0 < s.slowMo then { s with slowMo := s.slowMo - dt } else s
    let s := enemiesStep env effDt s
    let s := bulletsStep env effDt s
    let s := beamsStep dt s
    let s := (bulletCollisions env s).2
    let s := pruneStep width height s
    let s := orbsStep env effDt s
    let s := powerUpsStep dt s
    let s := timersStep dt s
    let s := particlesStep dt effDt s
    let s := spawnThruster env dt s
    let s := shakeStep s
    shipCollisionStep env s

/-- The input commands a host can feed the core between ticks (the narrow
interfaces of the spec: movement snapshot, aim point, fire pulse, start
pulse, pause toggle, manual map switch). -/
inductive Cmd where
  | tick (dt width height : ℚ)
  | fire
  | start (width height : ℚ)
  | setKeys (k : Keys)
  | setAim (a : Option Vec2)
  | togglePause
  | mapSwitch (forward : Bool)

/-- Manual map switch (`q`/`e`): shift the current index, pick a fresh next
index, cancel any transition. -/
def mapSwitchCmd (forward : Bool) (s : GameState) : GameState :=
  let len := THEMES.length
  let cur := if forward then (s.currentThemeIdx + 1) % len
             else (s.currentThemeIdx + len - 1) % len
  let (ni, s') := pickNextThemeIndex cur s
  { s' with currentThemeIdx := cur, nextThemeIdx := ni
          , themeTransitioning := false, themeBlend := 0, themeTimer := 0 }

/-- One host-driven event.  `fire` is gated on `playing` and `start` on
`menu`/`gameover`, exactly as the key and mouse handlers gate them. -/
def step (env : MathEnv) (c : Cmd) (s : GameState) : GameState :=
  match c with
  | Cmd.tick dt width height => update env dt width height s
  | Cmd.fire => if s.mode = Mode.playing then shootBullet env s else s
  | Cmd.start width height => if s.mode = Mode.playing then s else startGame width height s
  | Cmd.setKeys k => { s with keys := k }
  | Cmd.setAim a => { s with aimPosition := a }
  | Cmd.togglePause => { s with pause := !s.pause }
  | Cmd.mapSwitch forward => mapSwitchCmd forward s

/-- Run a sequence of commands. -/
def run (env : MathEnv) (cmds : List Cmd) (s : GameState) : GameState :=
  cmds.foldl (fun st c => step env c st) s

/-- The initial state of a freshly mounted component: every `useRef` initial
value; the initial theme index consumes the first random draw. -/
def initState (f : ℕ → ℚ) : GameState :=
  let cur := Int.toNat ⌊f 0 * (THEMES.length : ℚ)⌋
  { score := 0, mode := Mode.menu
  , rocket := { position := { x := 0, y := 0 }, width := 48, height := 28, speed := 460 }
  , bullets := [], enemies := [], particles := []
  , spawnAccumulator := 0, spawnInterval := 900, difficultyTimer := 0, screenShake := 0
  , powerUps := [], scoreOrbs := [], wells := [], beams := []
  , powerupSpawnTimer := 0, wellSpawnTimer := 0
  , bossTimer := 0, eventTimer := 0, eventActive := none, eventTimeLeft := 0
  , meteorSpawnAcc := 0
  , hasShield := false, shieldTimer := 0, slowMo := 0, magnet := 0, homing := 0
  , spread := 0, laser := 0
  , multiplier := 1, comboTimer := 0
  , pause := false
  , currentThemeIdx := cur, nextThemeIdx := (cur + 1) % THEMES.length
  , themeBlend := 0, themeTimer := 0, themeDuration := 35, themeTransitioning := false
  , keys := { left := false, right := false, up := false, down := false }
  , aimPosition := none
  , randFn := f, randIdx := 1 }

/-- A concrete `MathEnv` for witnesses and counterexamples (the claims under
test never depend on the transcendental values beyond `hypot 0 (-1) = 1`,
which this instance satisfies). -/
def envW : MathEnv :=
  { hyp := fun _ _ => 1
  , cos := fun _ => 1
  , sin := fun _ => 0
  , atan2 := fun _ _ => 0
  , pi := 3 }

/-- A concrete random stream: every draw is one half. -/
def halfStream : ℕ → ℚ := fun _ => 1 / 2

/-- A concrete mid-game playing state used by witnesses and counterexamples:
the initial state moved to `playing` with the ship at the viewport center. -/
def baseState : GameState :=
  { initState halfStream with
    mode := Mode.playing
    rocket := { position := { x := 400, y := 300 }, width := 48, height := 28, speed := 460 } }

/-- A motionless hp-1 asteroid at (100, 100). -/
def ce1 : Enemy :=
  { position := { x := 100, y := 100 }
  , width := 40, height := 24
  , velocity := { x := 0, y := 0 }
  , kind := EnemyKind.asteroid
  , rotation := 0, spin := 0
  , hp := 1
  , asteroidRadii := some [20, 20, 20, 20, 20, 20] }

/-- A beam passing vertically through `ce1`'s center. -/
def cb1 : Beam :=
  { origin := { x := 120, y := 50 }
  , direction := { x := 0, y := 1 }
  , width := 6, ttl := 0.12 }

/-- The C1 counterexample state: one hp-1 asteroid crossed by two beams, no
bullets. -/
def cs1 : GameState := { baseState with enemies := [ce1], beams := [cb1, cb1] }

/-- The C3 counterexample state: a game-over state still holding a score orb
and a non-initial boss timer. -/
def cs3 : GameState :=
  { baseState with
    mode := Mode.gameover
    scoreOrbs := [{ position := { x := 10, y := 10 }, velocity := { x := 0, y := 0 }, value := 1 }]
    bossTimer := 50 }

/-- The C4 counterexample state: mid-transition, blend one half, between the
first two themes. -/
def cs4 : GameState :=
  { baseState with themeTransitioning := true, themeBlend := 1 / 2
                 , currentThemeIdx := 0, nextThemeIdx := 1 }

/-- The C5 counterexample state: playing with the laser effect active. -/
def cs5 : GameState := { baseState with laser := 1 }

/-- A shield power-up sitting exactly on the ship's center. -/
def pw7 : PowerUp :=
  { position := { x := 424, y := 314 }, radius := 10, type := PowerUpType.shield, ttl := 5 }

/-- The C7 witness state: a collectable shield power-up with a non-initial
prior shield duration. -/
def cs7 : GameState := { baseState with powerUps := [pw7], shieldTimer := 3 }

/-- The C8 witness state: one tick away from a transition commit (blend 0.9,
current 0, next 1). -/
def cs8 : GameState :=
  { baseState with themeTransitioning := true, themeBlend := 0.9
                 , currentThemeIdx := 0, nextThemeIdx := 1 }

/-- `scoreside s t`: `t` differs from `s` at most in the scoring side
effects of destroying enemies — score, combo, orbs, particles, screen shake
and the random index.  Every state-threading helper of the collision passes
stays within this set of fields. -/
def scoreside (s t : GameState) : Prop :=
  ∃ sc m ct os ps sh k, t =
    { s with score := sc, multiplier := m, comboTimer := ct, scoreOrbs := os
           , particles := ps, screenShake := sh, randIdx := k }

/-- The C2 invariant: the power-up and gravity-well populations are empty,
every timed-effect duration is zero and the shield flag is down. -/
def pristine (s : GameState) : Prop :=
  s.powerUps = [] ∧ s.wells = [] ∧ s.shieldTimer = 0 ∧ s.slowMo = 0 ∧
  s.magnet = 0 ∧ s.homing = 0 ∧ s.spread = 0 ∧ s.laser = 0 ∧ s.hasShield = false

/-- The C1 side condition: every enemy currently in the population is alive
(`hp > 0`) and no beam is pending. -/
def hpInv (s : GameState) : Prop :=
  (∀ e ∈ s.enemies, 0 < e.hp) ∧ s.beams = []

/-- `themeside s t`: `t` differs from `s` at most in the theme-rotation
bookkeeping fields and the random index. -/
def themeside (s t : GameState) : Prop :=
  ∃ tt tb tm ci ni k, t =
    { s with themeTransitioning := tt, themeBlend := tb, themeTimer := tm
           , currentThemeIdx := ci, nextThemeIdx := ni, randIdx := k }

/-- `effectside s t`: `t` differs from `s` at most in the power-up
population and the timed-effect fields — the fields `applyPowerUp` and the
power-up pass write. -/
def effectside (s t : GameState) : Prop :=
  ∃ ps hs st sm mg hm sp ls, t =
    { s with powerUps := ps, hasShield := hs, shieldTimer := st, slowMo := sm
           , magnet := mg, homing := hm, spread := sp, laser := ls }

/-- The C1 witness state: one live asteroid, no bullets, no beams. -/
def cw1 : GameState := { baseState with enemies := [ce1] }


/-- C9: `normalize` applied to the zero vector returns the zero vector and
never divides by zero (the divisor `length(v) || 1` is nonzero for every
input, so no NaN can arise); and when no pointer position is known the fire
command uses the default up direction (0, -1) as its aim direction. -/
theorem c9_theorem (env : MathEnv) :
    (∀ v : Vec2, normalizeLen env v ≠ 0) ∧
    normalize env { x := 0, y := 0 } = { x := 0, y := 0 } ∧
    (∀ s : GameState, s.aimPosition = none → env.hyp 0 (-1) = 1 →
      shootDirection env s = { x := 0, y := -1 }) := by
  refine ⟨fun v => ?_, ?_, fun s haim hhyp => ?_⟩
  · unfold normalizeLen
    split
    · exact one_ne_zero
    · assumption
  · simp [normalize]
  · have hx : shootAim s = { x := s.rocket.position.x + s.rocket.width / 2
                           , y := s.rocket.position.y + s.rocket.height / 2 - 1 } := by
      simp [shootAim, haim]
    simp only [shootDirection, hx]
    have h0 : ({ x := s.rocket.position.x + s.rocket.width / 2
               , y := s.rocket.position.y + s.rocket.height / 2 - 1 } : Vec2).x -
        (s.rocket.position.x + s.rocket.width / 2) = 0 := by ring
    have h1 : ({ x := s.rocket.position.x + s.rocket.width / 2
               , y := s.rocket.position.y + s.rocket.height / 2 - 1 } : Vec2).y -
        (s.rocket.position.y + s.rocket.height / 2) = -1 := by ring
    simp only [h0, h1]
    simp [normalize, normalizeLen, vecLength, hhyp]

/-- C9 witness: at the concrete environment and state, the default aim
direction is straight up. -/
theorem c9_witness :
    (baseState.aimPosition = none ∧ envW.hyp 0 (-1) = 1) ∧
    shootDirection envW baseState = { x := 0, y := -1 } :=
  ⟨⟨by decide, by decide⟩, (c9_theorem envW).2.2 baseState (by decide) (by decide)⟩

/-- C4 counterexample: at a transition with blend one half between the first
two themes, the spawner's `ufoChance` is the next theme's 0.3, not the
interpolated 0.375 — the claimed linear interpolation is refuted. -/
theorem c4_counterexample :
    cs4.themeTransitioning = true ∧ cs4.themeBlend = 1 / 2 ∧
    (0 : ℚ) < 1 / 2 ∧ (1 : ℚ) / 2 < 1 ∧
    (spawnTheme cs4).ufoChance ≠
      lerp (themeAt cs4.currentThemeIdx).ufoChance (themeAt cs4.nextThemeIdx).ufoChance (1 / 2) ∧
    (spawnTheme cs4).enemySpeedMultiplier ≠
      lerp (themeAt cs4.currentThemeIdx).enemySpeedMultiplier
        (themeAt cs4.nextThemeIdx).enemySpeedMultiplier (1 / 2) := by
  decide

/-- C4 amended: during a transition with positive blend the spawner reads
`ufoChance` and `enemySpeedMultiplier` wholesale from the next theme (no
interpolation); outside a transition it reads the current theme. -/
theorem c4_theorem (s : GameState) :
    (s.themeTransitioning = true → 0 < s.themeBlend →
      spawnTheme s = themeAt s.nextThemeIdx) ∧
    (s.themeTransitioning = false → spawnTheme s = themeAt s.currentThemeIdx) := by
  constructor
  · intro ht hb
    have hpos : (0 : ℚ) < clamp s.themeBlend 0 1 :=
      lt_max_iff.mpr (Or.inr (lt_min one_pos hb))
    simp [spawnTheme, getEffectiveThemeBlend, ht, clamp] at hpos ⊢
    intro hle
    exact absurd hpos (not_lt.mpr hle)
  · intro ht
    simp [spawnTheme, getEffectiveThemeBlend, ht]

/-- C4 witness: the amended behavior evaluated at the counterexample state. -/
theorem c4_witness :
    (cs4.themeTransitioning = true ∧ (0 : ℚ) < cs4.themeBlend) ∧
    spawnTheme cs4 = themeAt cs4.nextThemeIdx :=
  ⟨⟨by decide, by decide⟩, (c4_theorem cs4).1 (by decide) (by decide)⟩

lemma beamHits_hp (b : Beam) (e : Enemy) (x : ℚ) :
    beamHits b { e with hp := x } = beamHits b e := rfl

lemma beamsLoop_enemies (dt : ℚ) (bs : List Beam) (es : List Enemy) :
    (beamsLoop dt bs es).2 = es.map (fun e =>
      { e with hp := e.hp - 0.8 * (bs.countP (fun b => beamHits b e) : ℚ) }) := by
  induction bs generalizing es with
  | nil =>
    simp only [beamsLoop, List.countP_nil, Nat.cast_zero, mul_zero, sub_zero]
    exact (List.map_id es).symm
  | cons b bs ih =>
    simp only [beamsLoop]
    rw [ih (beamDamage b es)]
    simp only [beamDamage, List.map_map]
    apply List.map_congr_left
    intro e _
    by_cases h : beamHits b e
    · simp only [Function.comp_apply, h, if_true, beamHits_hp, List.countP_cons, h]
      have : e.hp - 0.8 - 0.8 * ((bs.countP (fun b' => beamHits b' e) : ℚ)) =
          e.hp - 0.8 * (((bs.countP (fun b' => beamHits b' e) + 1 : ℕ)) : ℚ) := by
        push_cast
        ring
      simp only [this, if_true]
    · simp only [Function.comp_apply, h, if_false, List.countP_cons]
      simp [h]

/-- C10: each beam present at the start of a tick damages every enemy whose
center lies in its capsule by the flat 0.8, exactly once per tick: after the
beam pass each enemy's hp has dropped by 0.8 times the number of input beams
hitting it.  The formula ranges over the input beams (so a beam expiring this
tick still deals its damage) and does not mention `dt` (so the damage is
independent of the tick's delta), which the second conjunct states
explicitly. -/
theorem c10_theorem (dt : ℚ) (s : GameState) :
    (beamsStep dt s).enemies = s.enemies.map (fun e =>
      { e with hp := e.hp - 0.8 * (s.beams.countP (fun b => beamHits b e) : ℚ) }) ∧
    ∀ dt' : ℚ, (beamsStep dt s).enemies = (beamsStep dt' s).enemies := by
  constructor
  · exact beamsLoop_enemies dt s.beams s.enemies
  · intro dt'
    show (beamsLoop dt s.beams s.enemies).2 = (beamsLoop dt' s.beams s.enemies).2
    rw [beamsLoop_enemies dt s.beams s.enemies, beamsLoop_enemies dt' s.beams s.enemies]

/-- C3 counterexample: starting from a game-over state that still holds a
score orb and a 50-second boss timer, the start command enters playing mode
but neither empties the score-orb population nor restores the boss timer —
the claimed full reset is refuted. -/
theorem c3_counterexample :
    cs3.mode = Mode.gameover ∧
    (step envW (Cmd.start 800 600) cs3).mode = Mode.playing ∧
    (step envW (Cmd.start 800 600) cs3).score = 0 ∧
    (step envW (Cmd.start 800 600) cs3).scoreOrbs ≠ [] ∧
    (step envW (Cmd.start 800 600) cs3).bossTimer ≠ 0 := by
  decide

/-- C3 amended: the start command (from menu or game over) enters playing
mode, zeroes the score, empties the bullets, enemies and particles
populations, and restores the spawn accumulator/interval, difficulty timer
and screen shake to their initial values — but it leaves the score orbs,
power-ups, gravity wells and beams populations and the boss, event, theme,
effect and combo timers unchanged. -/
theorem c3_theorem (env : MathEnv) (w h : ℚ) (s : GameState)
    (hmode : s.mode ≠ Mode.playing) :
    (step env (Cmd.start w h) s).mode = Mode.playing ∧
    (step env (Cmd.start w h) s).score = 0 ∧
    (step env (Cmd.start w h) s).bullets = [] ∧
    (step env (Cmd.start w h) s).enemies = [] ∧
    (step env (Cmd.start w h) s).particles = [] ∧
    (step env (Cmd.start w h) s).spawnAccumulator = 0 ∧
    (step env (Cmd.start w h) s).spawnInterval = 900 ∧
    (step env (Cmd.start w h) s).difficultyTimer = 0 ∧
    (step env (Cmd.start w h) s).screenShake = 0 ∧
    (step env (Cmd.start w h) s).scoreOrbs = s.scoreOrbs ∧
    (step env (Cmd.start w h) s).powerUps = s.powerUps ∧
    (step env (Cmd.start w h) s).wells = s.wells ∧
    (step env (Cmd.start w h) s).beams = s.beams ∧
    (step env (Cmd.start w h) s).bossTimer = s.bossTimer ∧
    (step env (Cmd.start w h) s).eventTimer = s.eventTimer ∧
    (step env (Cmd.start w h) s).eventActive = s.eventActive ∧
    (step env (Cmd.start w h) s).shieldTimer = s.shieldTimer ∧
    (step env (Cmd.start w h) s).slowMo = s.slowMo ∧
    (step env (Cmd.start w h) s).magnet = s.magnet ∧
    (step env (Cmd.start w h) s).homing = s.homing ∧
    (step env (Cmd.start w h) s).spread = s.spread ∧
    (step env (Cmd.start w h) s).laser = s.laser ∧
    (step env (Cmd.start w h) s).hasShield = s.hasShield ∧
    (step env (Cmd.start w h) s).themeTimer = s.themeTimer ∧
    (step env (Cmd.start w h) s).multiplier = s.multiplier ∧
    (step env (Cmd.start w h) s).comboTimer = s.comboTimer := by
  simp [step, hmode, startGame, resetGame]

/-- C3 witness: the amended reset behavior evaluated at the game-over
counterexample state. -/
theorem c3_witness :
    (cs3.mode ≠ Mode.playing) ∧
    (step envW (Cmd.start 800 600) cs3).mode = Mode.playing ∧
    (step envW (Cmd.start 800 600) cs3).scoreOrbs = cs3.scoreOrbs :=
  ⟨by decide, (c3_theorem envW 800 600 cs3 (by decide)).1,
    (c3_theorem envW 800 600 cs3 (by decide)).2.2.2.2.2.2.2.2.2.1⟩

lemma muzzleLoop_spec (o d : Vec2) (n : ℕ) (s : GameState)
    (hr : ∀ k, 0 ≤ s.randFn k ∧ s.randFn k ≤ 1) :
    ∃ news : List Particle,
      (muzzleLoop o d n s).particles = s.particles ++ news ∧
      news.length = n ∧
      ∀ p ∈ news, p.colorStart = "rgba(255,210,120,0.9)" ∧
        p.colorEnd = "rgba(255,120,40,0.0)" ∧ p.life = 0 ∧ p.sizeStart = 4 ∧
        0.18 ≤ p.maxLife ∧ p.maxLife ≤ 0.3 := by
  induction n generalizing s with
  | zero => exact ⟨[], by simp [muzzleLoop], rfl, by simp⟩
  | succ n ih =>
    obtain ⟨news, hpart, hlen, hprop⟩ := ih (muzzleParticle o d s) hr
    refine ⟨{ position := { x := o.x + d.x * 4, y := o.y + d.y * 4 }
            , velocity := { x := d.x * (200 + s.randFn s.randIdx * 200) +
                                 (s.randFn (s.randIdx + 1) - 0.5) * 80
                          , y := d.y * (200 + s.randFn (s.randIdx + 2) * 200) +
                                 (s.randFn (s.randIdx + 3) - 0.5) * 80 }
            , life := 0
            , maxLife := 0.18 + s.randFn (s.randIdx + 4) * 0.12
            , sizeStart := 4, sizeEnd := 0
            , colorStart := "rgba(255,210,120,0.9)"
            , colorEnd := "rgba(255,120,40,0.0)"
            , additive := true } :: news, ?_, by simp [hlen], ?_⟩
    · show (muzzleLoop o d n (muzzleParticle o d s)).particles = _
      rw [hpart]
      simp [muzzleParticle, pushParticle, bump, rand0]
    · intro p hp
      rcases List.mem_cons.mp hp with h | h
      · subst h
        refine ⟨rfl, rfl, rfl, rfl, ?_, ?_⟩
        · have := (hr (s.randIdx + 4)).1
          nlinarith
        · have := (hr (s.randIdx + 4)).2
          nlinarith
      · exact hprop p h

/-- C5 counterexample: at a playing state with the laser effect active, the
fire command emits a beam but no muzzle-flash particles (the laser branch
returns before the particle loop), refuting the claim that firing always
emits the flash burst. -/
theorem c5_counterexample :
    cs5.mode = Mode.playing ∧ 0 < cs5.laser ∧
    (step envW Cmd.fire cs5).particles = [] ∧
    (step envW Cmd.fire cs5).beams.length = 1 := by
  decide

/-- C5 amended: a fire command while playing emits a burst of 8 short-lived
warm-colored muzzle-flash particles whenever the laser effect is inactive
(in both the single-bullet and spread branches); when the laser effect is
active, a beam is emitted instead and no muzzle-flash particles are
produced. -/
theorem c5_theorem (env : MathEnv) (s : GameState) (hmode : s.mode = Mode.playing) :
    (s.laser ≤ 0 → (∀ k, 0 ≤ s.randFn k ∧ s.randFn k ≤ 1) →
      ∃ news : List Particle,
        (step env Cmd.fire s).particles = s.particles ++ news ∧
        news.length = 8 ∧
        ∀ p ∈ news, p.colorStart = "rgba(255,210,120,0.9)" ∧
          p.colorEnd = "rgba(255,120,40,0.0)" ∧ p.life = 0 ∧ p.sizeStart = 4 ∧
          0.18 ≤ p.maxLife ∧ p.maxLife ≤ 0.3) ∧
    (0 < s.laser →
      (step env Cmd.fire s).particles = s.particles ∧
      (step env Cmd.fire s).beams.length = s.beams.length + 1) := by
  have hstep : step env Cmd.fire s = shootBullet env s := by simp [step, hmode]
  constructor
  · intro hlaser hr
    have hnl : ¬ 0 < s.laser := not_lt.mpr hlaser
    rw [hstep]
    by_cases hs : 0 < s.spread
    · simp only [shootBullet, hnl, if_false, hs, if_true]
      obtain ⟨news, hpart, hlen, hprop⟩ :=
        muzzleLoop_spec _ _ 8
          (pushBullet _ (pushBullet _ (pushBullet _ s))) (by exact hr)
      exact ⟨news, by rw [hpart]; rfl, hlen, hprop⟩
    · simp only [shootBullet, hnl, if_false, hs]
      obtain ⟨news, hpart, hlen, hprop⟩ :=
        muzzleLoop_spec _ _ 8 (pushBullet _ s) (by exact hr)
      exact ⟨news, by rw [hpart]; rfl, hlen, hprop⟩
  · intro hlaser
    rw [hstep]
    constructor
    · simp [shootBullet, hlaser, pushBeam]
    · simp [shootBullet, hlaser, pushBeam]

/-- C5 witness: the amended flash burst evaluated at the concrete base
state (laser inactive). -/
theorem c5_witness :
    (baseState.mode = Mode.playing ∧ baseState.laser ≤ 0) ∧
    ∃ news : List Particle,
      (step envW Cmd.fire baseState).particles = baseState.particles ++ news ∧
      news.length = 8 ∧
      ∀ p ∈ news, p.colorStart = "rgba(255,210,120,0.9)" ∧
        p.colorEnd = "rgba(255,120,40,0.0)" ∧ p.life = 0 ∧ p.sizeStart = 4 ∧
        0.18 ≤ p.maxLife ∧ p.maxLife ≤ 0.3 :=
  ⟨⟨by decide, by decide⟩,
    (c5_theorem envW baseState (by decide)).1 (by decide)
      (fun k => ⟨by norm_num [baseState, initState, halfStream],
                 by norm_num [baseState, initState, halfStream]⟩)⟩

lemma collects_ttl (r : Rocket) (p : PowerUp) (x : ℚ) :
    collects r { p with ttl := x } = collects r p := rfl

lemma pupLoop_keep {α : Type} (g : GameState → α) (T : PowerUpType) (val : α)
    (hg : ∀ t s, g (applyPowerUp t s) = if t = T then val else g s)
    (dt : ℚ) (r : Rocket) :
    ∀ (ps : List PowerUp) (s : GameState),
      (∀ p ∈ ps, p.type = T → collects r p = false) →
      g (pupLoop dt r ps s).2 = g s := by
  intro ps
  induction ps with
  | nil => intro s _; rfl
  | cons p ps ih =>
    intro s h
    by_cases hc : collects r p = true
    · have hT : ¬ p.type = T := fun hT => by
        have := h p (List.mem_cons_self p ps) hT
        rw [hc] at this
        exact Bool.noConfusion this
      show g (pupLoop dt r (p :: ps) s).2 = g s
      simp only [pupLoop, collects_ttl, hc, if_true]
      rw [ih _ (fun q hq => h q (List.mem_cons_of_mem p hq))]
      have := hg p.type s
      simp only [hT, if_false] at this
      exact this
    · have hc' : collects r p = false := by
        cases hcc : collects r p
        · rfl
        · exact absurd hcc hc
      show g (pupLoop dt r (p :: ps) s).2 = g s
      simp only [pupLoop, collects_ttl, hc', Bool.false_eq_true, if_false]
      split
      · rw [ih _ (fun q hq => h q (List.mem_cons_of_mem p hq))]
      · rw [ih _ (fun q hq => h q (List.mem_cons_of_mem p hq))]

lemma pupLoop_set {α : Type} (g : GameState → α) (T : PowerUpType) (val : α)
    (hg : ∀ t s, g (applyPowerUp t s) = if t = T then val else g s)
    (dt : ℚ) (r : Rocket) :
    ∀ (ps : List PowerUp) (s : GameState),
      (∃ p ∈ ps, p.type = T ∧ collects r p = true) →
      g (pupLoop dt r ps s).2 = val := by
  intro ps
  induction ps with
  | nil => intro s h; simp at h
  | cons p ps ih =>
    intro s h
    obtain ⟨q, hq, hqT, hqc⟩ := h
    by_cases hc : collects r p = true
    · show g (pupLoop dt r (p :: ps) s).2 = val
      simp only [pupLoop, collects_ttl, hc, if_true]
      by_cases hex : ∃ p' ∈ ps, p'.type = T ∧ collects r p' = true
      · exact ih _ hex
      · have hpT : p.type = T := by
          rcases List.mem_cons.mp hq with rfl | hq'
          · exact hqT
          · exact absurd ⟨q, hq', hqT, hqc⟩ hex
        push_neg at hex
        have hkeep : ∀ p' ∈ ps, p'.type = T → collects r p' = false := by
          intro p' hp' hp'T
          have := hex p' hp' hp'T
          cases hcc : collects r p'
          · rfl
          · exact absurd hcc this
        rw [pupLoop_keep g T val hg dt r ps _ hkeep, hpT]
        simpa using hg T s
    · have hc' : collects r p = false := by
        cases hcc : collects r p
        · rfl
        · exact absurd hcc hc
      have hq' : q ∈ ps := by
        rcases List.mem_cons.mp hq with rfl | hq'
        · rw [hqc] at hc'
          exact absurd hc' (by simp)
        · exact hq'
      show g (pupLoop dt r (p :: ps) s).2 = val
      simp only [pupLoop, collects_ttl, hc', Bool.false_eq_true, if_false]
      split
      · exact ih _ ⟨q, hq', hqT, hqc⟩
      · exact ih _ ⟨q, hq', hqT, hqc⟩

/-- C7: collecting a power-up sets the corresponding effect duration to its
fixed value — shield 8 s (also raising the has-shield flag), slow-mo 6 s,
magnet 10 s, homing 10 s, spread 10 s, laser 6 s — as an assignment, not an
addition: the result is the fixed value regardless of the prior duration
held in the state. -/
theorem c7_theorem (dt : ℚ) (s : GameState) :
    ((∃ p ∈ s.powerUps, p.type = PowerUpType.shield ∧ collects s.rocket p = true) →
      (powerUpsStep dt s).shieldTimer = 8 ∧ (powerUpsStep dt s).hasShield = true) ∧
    ((∃ p ∈ s.powerUps, p.type = PowerUpType.slowmo ∧ collects s.rocket p = true) →
      (powerUpsStep dt s).slowMo = 6) ∧
    ((∃ p ∈ s.powerUps, p.type = PowerUpType.magnet ∧ collects s.rocket p = true) →
      (powerUpsStep dt s).magnet = 10) ∧
    ((∃ p ∈ s.powerUps, p.type = PowerUpType.homing ∧ collects s.rocket p = true) →
      (powerUpsStep dt s).homing = 10) ∧
    ((∃ p ∈ s.powerUps, p.type = PowerUpType.spread ∧ collects s.rocket p = true) →
      (powerUpsStep dt s).spread = 10) ∧
    ((∃ p ∈ s.powerUps, p.type = PowerUpType.laser ∧ collects s.rocket p = true) →
      (powerUpsStep dt s).laser = 6) := by
  refine ⟨fun h => ⟨?_, ?_⟩, fun h => ?_, fun h => ?_, fun h => ?_, fun h => ?_, fun h => ?_⟩
  · exact pupLoop_set (fun t => t.shieldTimer) PowerUpType.shield 8
      (fun t s => by cases t <;> simp [applyPowerUp]) dt s.rocket s.powerUps s h
  · exact pupLoop_set (fun t => t.hasShield) PowerUpType.shield true
      (fun t s => by cases t <;> simp [applyPowerUp]) dt s.rocket s.powerUps s h
  · exact pupLoop_set (fun t => t.slowMo) PowerUpType.slowmo 6
      (fun t s => by cases t <;> simp [applyPowerUp]) dt s.rocket s.powerUps s h
  · exact pupLoop_set (fun t => t.magnet) PowerUpType.magnet 10
      (fun t s => by cases t <;> simp [applyPowerUp]) dt s.rocket s.powerUps s h
  · exact pupLoop_set (fun t => t.homing) PowerUpType.homing 10
      (fun t s => by cases t <;> simp [applyPowerUp]) dt s.rocket s.powerUps s h
  · exact pupLoop_set (fun t => t.spread) PowerUpType.spread 10
      (fun t s => by cases t <;> simp [applyPowerUp]) dt s.rocket s.powerUps s h
  · exact pupLoop_set (fun t => t.laser) PowerUpType.laser 6
      (fun t s => by cases t <;> simp [applyPowerUp]) dt s.rocket s.powerUps s h

/-- C7 witness: collecting a shield power-up while 3 s of shield remain sets
the timer to exactly 8 s and the flag to true. -/
theorem c7_witness :
    (cs7.shieldTimer = 3 ∧
      ∃ p ∈ cs7.powerUps, p.type = PowerUpType.shield ∧ collects cs7.rocket p = true) ∧
    (powerUpsStep 0.016 cs7).shieldTimer = 8 ∧ (powerUpsStep 0.016 cs7).hasShield = true :=
  ⟨⟨by decide, by decide⟩, (c7_theorem 0.016 cs7).1 (by decide)⟩

lemma two_add_ite_pos (c : Prop) [Decidable c] :
    (0 : ℚ) < 2 + if c then 1 else 0 := by
  split <;> norm_num

lemma spawnEnemy_enemies (env : MathEnv) (w h : ℚ) (s : GameState) :
    ∃ ne : Enemy, (spawnEnemy env w h s).enemies = s.enemies ++ [ne] ∧ 0 < ne.hp := by
  refine ⟨_, rfl, ?_⟩
  show (0 : ℚ) < Enemy.hp _
  dsimp only [spawnEnemy]
  split <;> split <;>
    first
    | exact two_add_ite_pos _
    | norm_num

lemma floor_div_sub_one {acc step : ℚ} (hstep : 0 < step) :
    ⌊(acc - step) / step⌋ = ⌊acc / step⌋ - 1 := by
  have hne : step ≠ 0 := hstep.ne'
  have h1 : (acc - step) / step = acc / step - 1 := by
    field_simp
  rw [h1]
  exact_mod_cast Int.floor_sub_int (acc / step) 1

lemma one_le_floor_div {acc step : ℚ} (hstep : 0 < step) (h : step ≤ acc) :
    1 ≤ ⌊acc / step⌋ := by
  rw [Int.le_floor]
  exact_mod_cast (one_le_div hstep).mpr h

lemma floor_div_zero {acc step : ℚ} (hstep : 0 < step) (hacc : 0 ≤ acc)
    (h : acc < step) : ⌊acc / step⌋ = 0 := by
  rw [Int.floor_eq_zero_iff]
  exact ⟨div_nonneg hacc hstep.le, (div_lt_one hstep).mpr h⟩

lemma spawnDrain_boss (env : MathEnv) (w h step : ℚ) (hstep : 0 < step) :
    ∀ (fuel : ℕ) (acc : ℚ) (s : GameState), 0 ≤ acc →
      Int.toNat ⌊acc / step⌋ ≤ fuel →
      spawnDrain env w h true step fuel acc s =
        (acc - (Int.toNat ⌊acc / step⌋ : ℚ) * step, s) := by
  intro fuel
  induction fuel with
  | zero =>
    intro acc s hacc hle
    have h0 : Int.toNat ⌊acc / step⌋ = 0 := Nat.le_zero.mp hle
    simp [spawnDrain, h0]
  | succ fuel ih =>
    intro acc s hacc hle
    show (if step ≤ acc then _ else _) = _
    by_cases hc : step ≤ acc
    · rw [if_pos hc, if_pos rfl]
      have h1 : 1 ≤ ⌊acc / step⌋ := one_le_floor_div hstep hc
      have hfl : ⌊(acc - step) / step⌋ = ⌊acc / step⌋ - 1 := floor_div_sub_one hstep
      have hle' : Int.toNat ⌊(acc - step) / step⌋ ≤ fuel := by
        rw [hfl]; omega
      rw [ih (acc - step) s (by linarith) hle']
      have hcast : ((Int.toNat ⌊(acc - step) / step⌋ : ℚ)) =
          (Int.toNat ⌊acc / step⌋ : ℚ) - 1 := by
        rw [hfl]
        have : Int.toNat (⌊acc / step⌋ - 1) = Int.toNat ⌊acc / step⌋ - 1 := by omega
        rw [this]
        have h1n : 1 ≤ Int.toNat ⌊acc / step⌋ := by omega
        push_cast [Nat.cast_sub h1n]
        ring
      rw [hcast]
      simp only [Prod.mk.injEq]
      exact ⟨by ring, trivial⟩
    · rw [if_neg hc]
      have h0 : ⌊acc / step⌋ = 0 := floor_div_zero hstep hacc (lt_of_not_le hc)
      simp [h0]

lemma spawnDrain_free (env : MathEnv) (w h step : ℚ) (hstep : 0 < step) :
    ∀ (fuel : ℕ) (acc : ℚ) (s : GameState), 0 ≤ acc →
      Int.toNat ⌊acc / step⌋ ≤ fuel →
      (spawnDrain env w h false step fuel acc s).1 =
        acc - (Int.toNat ⌊acc / step⌋ : ℚ) * step ∧
      (spawnDrain env w h false step fuel acc s).2.enemies.length =
        s.enemies.length + Int.toNat ⌊acc / step⌋ := by
  intro fuel
  induction fuel with
  | zero =>
    intro acc s hacc hle
    have h0 : Int.toNat ⌊acc / step⌋ = 0 := Nat.le_zero.mp hle
    simp [spawnDrain, h0]
  | succ fuel ih =>
    intro acc s hacc hle
    show ((if step ≤ acc then _ else _) : ℚ × GameState).1 = _ ∧
      ((if step ≤ acc then _ else _) : ℚ × GameState).2.enemies.length = _
    by_cases hc : step ≤ acc
    · rw [if_pos hc, if_neg Bool.false_ne_true]
      have h1 : 1 ≤ ⌊acc / step⌋ := one_le_floor_div hstep hc
      have hfl : ⌊(acc - step) / step⌋ = ⌊acc / step⌋ - 1 := floor_div_sub_one hstep
      have hle' : Int.toNat ⌊(acc - step) / step⌋ ≤ fuel := by
        rw [hfl]; omega
      obtain ⟨ha, hb⟩ := ih (acc - step) (spawnEnemy env w h s) (by linarith) hle'
      obtain ⟨ne, hne, _⟩ := spawnEnemy_enemies env w h s
      have hlen : (spawnEnemy env w h s).enemies.length = s.enemies.length + 1 := by
        rw [hne]; simp
      refine ⟨?_, ?_⟩
      · rw [ha]
        have hcast : ((Int.toNat ⌊(acc - step) / step⌋ : ℚ)) =
            (Int.toNat ⌊acc / step⌋ : ℚ) - 1 := by
          rw [hfl]
          have : Int.toNat (⌊acc / step⌋ - 1) = Int.toNat ⌊acc / step⌋ - 1 := by omega
          rw [this]
          have h1n : 1 ≤ Int.toNat ⌊acc / step⌋ := by omega
          push_cast [Nat.cast_sub h1n]
          ring
        rw [hcast]
        ring
      · rw [hb, hlen, hfl]
        omega
    · rw [if_neg hc]
      have h0 : ⌊acc / step⌋ = 0 := floor_div_zero hstep hacc (lt_of_not_le hc)
      simp [h0]

/-- C6: while a boss is alive the spawner emits no regular enemies and the
accumulator drains by one widened slot of 1.8 times the interval per whole
slot accumulated; while no boss is alive exactly one regular enemy is
emitted per whole spawn interval accumulated, and the accumulator keeps the
remainder. -/
theorem c6_theorem (env : MathEnv) (dt w h : ℚ) (s : GameState)
    (hI : 0 < s.spawnInterval) (hacc : 0 ≤ s.spawnAccumulator) (hdt : 0 ≤ dt) :
    (s.enemies.any isBoss = true →
      (spawningStep env dt w h (s.enemies.any isBoss) s).enemies = s.enemies ∧
      (spawningStep env dt w h (s.enemies.any isBoss) s).spawnAccumulator =
        (s.spawnAccumulator + dt * 1000) -
          (Int.toNat ⌊(s.spawnAccumulator + dt * 1000) / (s.spawnInterval * 1.8)⌋ : ℚ) *
            (s.spawnInterval * 1.8)) ∧
    (s.enemies.any isBoss = false →
      (spawningStep env dt w h (s.enemies.any isBoss) s).enemies.length =
        s.enemies.length +
          Int.toNat ⌊(s.spawnAccumulator + dt * 1000) / s.spawnInterval⌋ ∧
      (spawningStep env dt w h (s.enemies.any isBoss) s).spawnAccumulator =
        (s.spawnAccumulator + dt * 1000) -
          (Int.toNat ⌊(s.spawnAccumulator + dt * 1000) / s.spawnInterval⌋ : ℚ) *
            s.spawnInterval) := by
  have hacc' : 0 ≤ s.spawnAccumulator + dt * 1000 := by
    have : (0 : ℚ) ≤ dt * 1000 := by linarith
    linarith
  constructor
  · intro hb
    rw [hb]
    have hstep : 0 < s.spawnInterval * 1.8 := by
      have : (0 : ℚ) < 1.8 := by norm_num
      positivity
    have hfuel : Int.toNat ⌊(s.spawnAccumulator + dt * 1000) / (s.spawnInterval * 1.8)⌋ ≤
        Int.toNat ⌈(s.spawnAccumulator + dt * 1000) / (s.spawnInterval * 1.8)⌉ + 1 := by
      have := Int.floor_le_ceil ((s.spawnAccumulator + dt * 1000) / (s.spawnInterval * 1.8))
      omega
    unfold spawningStep
    simp only [if_true]
    rw [spawnDrain_boss env w h _ hstep _ _ s hacc' hfuel]
    exact ⟨rfl, rfl⟩
  · intro hb
    rw [hb]
    have hfuel : Int.toNat ⌊(s.spawnAccumulator + dt * 1000) / s.spawnInterval⌋ ≤
        Int.toNat ⌈(s.spawnAccumulator + dt * 1000) / s.spawnInterval⌉ + 1 := by
      have := Int.floor_le_ceil ((s.spawnAccumulator + dt * 1000) / s.spawnInterval)
      omega
    obtain ⟨ha, hb'⟩ := spawnDrain_free env w h _ hI
      (Int.toNat ⌈(s.spawnAccumulator + dt * 1000) / s.spawnInterval⌉ + 1)
      (s.spawnAccumulator + dt * 1000) s hacc' hfuel
    unfold spawningStep
    simp only [Bool.false_eq_true, if_false]
    exact ⟨hb', ha⟩

/-- C6 witness: with no boss, interval 900 ms, empty accumulator and a one
second tick, exactly one regular enemy is spawned and the accumulator keeps
the 100 ms remainder. -/
theorem c6_witness :
    (0 < baseState.spawnInterval ∧ 0 ≤ baseState.spawnAccumulator ∧ (0 : ℚ) ≤ 1 ∧
      baseState.enemies.any isBoss = false) ∧
    (spawningStep envW 1 800 600 (baseState.enemies.any isBoss) baseState).enemies.length =
      baseState.enemies.length +
        Int.toNat ⌊(baseState.spawnAccumulator + 1 * 1000) / baseState.spawnInterval⌋ :=
  ⟨⟨by decide, by decide, by decide, by decide⟩,
    ((c6_theorem envW 1 800 600 baseState (by decide) (by decide) (by decide)).2
      (by decide)).1⟩

lemma bump_bump (a b : ℕ) (s : GameState) : bump a (bump b s) = bump (b + a) s := by
  simp [bump, Nat.add_assoc]

lemma pickLoop_snd (exclude : ℕ) : ∀ (fuel idx : ℕ) (s : GameState),
    ∃ n, (pickLoop exclude idx fuel s).2 = bump n s
  | 0, idx, s => ⟨0, by simp [pickLoop, bump]⟩
  | fuel + 1, idx, s => by
    have hstep : pickLoop exclude idx (fuel + 1) s =
        if idx = exclude then
          pickLoop exclude (Int.toNat ⌊rand0 s 0 * (THEMES.length : ℚ)⌋) fuel (bump 1 s)
        else (idx, s) := rfl
    rw [hstep]
    by_cases h : idx = exclude
    · rw [if_pos h]
      obtain ⟨n, hn⟩ := pickLoop_snd exclude fuel
        (Int.toNat ⌊rand0 s 0 * (THEMES.length : ℚ)⌋) (bump 1 s)
      exact ⟨1 + n, by rw [hn, bump_bump]⟩
    · rw [if_neg h]
      exact ⟨0, by simp [bump]⟩

lemma pickNext_snd (exclude : ℕ) (s : GameState) :
    ∃ n, (pickNextThemeIndex exclude s).2 = bump n s := by
  unfold pickNextThemeIndex
  split
  · exact ⟨0, by simp [bump]⟩
  · exact pickLoop_snd exclude 1000000 exclude s

lemma pickNext_first (exclude : ℕ) (s : GameState)
    (hgood : Int.toNat ⌊rand0 s 0 * (THEMES.length : ℚ)⌋ ≠ exclude) :
    pickNextThemeIndex exclude s =
      (Int.toNat ⌊rand0 s 0 * (THEMES.length : ℚ)⌋, bump 1 s) := by
  unfold pickNextThemeIndex
  rw [if_neg (by decide)]
  have h1 : (1000000 : ℕ) = 999998 + 1 + 1 := by norm_num
  rw [h1]
  show (if exclude = exclude then _ else _) = _
  rw [if_pos rfl]
  show (if Int.toNat ⌊rand0 s 0 * (THEMES.length : ℚ)⌋ = exclude then _ else _) = _
  rw [if_neg hgood]

/-- C8: theme rotation.  With the fixed 35 s duration: (1) while not
transitioning and the accumulated timer stays at or below 35 s, no
transition starts and the indices are unchanged; (2) once the timer passes
35 s a transition starts (blend `dt/4`, timer rezeroed); (3) during a
transition the blend grows linearly by `dt/4` per tick; (4) when the blend
reaches 1 the transition commits — the current index becomes the
pre-transition next index, and (whenever the random draw differs from the
excluded index, as the source's rejection loop guarantees) the fresh next
index differs from the new current index. -/
theorem c8_theorem (dt : ℚ) (s : GameState) (hdur : s.themeDuration = 35) :
    (s.themeTransitioning = false → s.themeTimer + dt ≤ 35 →
      (themeStep dt s).themeTransitioning = false ∧
      (themeStep dt s).currentThemeIdx = s.currentThemeIdx ∧
      (themeStep dt s).nextThemeIdx = s.nextThemeIdx ∧
      (themeStep dt s).themeTimer = s.themeTimer + dt) ∧
    (s.themeTransitioning = false → 35 < s.themeTimer + dt → dt < 4 →
      (themeStep dt s).themeTransitioning = true ∧
      (themeStep dt s).themeBlend = dt / 4 ∧
      (themeStep dt s).themeTimer = 0 ∧
      (themeStep dt s).currentThemeIdx = s.currentThemeIdx) ∧
    (s.themeTransitioning = true → s.themeBlend + dt / 4 < 1 →
      (themeStep dt s).themeTransitioning = true ∧
      (themeStep dt s).themeBlend = s.themeBlend + dt / 4 ∧
      (themeStep dt s).currentThemeIdx = s.currentThemeIdx ∧
      (themeStep dt s).nextThemeIdx = s.nextThemeIdx) ∧
    (s.themeTransitioning = true → 1 ≤ s.themeBlend + dt / 4 →
      (themeStep dt s).themeTransitioning = false ∧
      (themeStep dt s).themeBlend = 0 ∧
      (themeStep dt s).currentThemeIdx = s.nextThemeIdx ∧
      (Int.toNat ⌊rand0 s 0 * (THEMES.length : ℚ)⌋ ≠ s.nextThemeIdx →
        (themeStep dt s).nextThemeIdx ≠ (themeStep dt s).currentThemeIdx)) := by
  refine ⟨fun h1 h2 => ?_, fun h1 h2 h3 => ?_, fun h1 h2 => ?_, fun h1 h2 => ?_⟩
  · unfold themeStep
    dsimp only
    have hA : ¬ (s.themeTransitioning = false ∧ s.themeDuration < s.themeTimer + dt) :=
      fun hh => absurd hh.2 (by rw [hdur]; exact not_lt.mpr h2)
    rw [if_neg hA]
    have hB : ¬ (s.themeTransitioning = true) := by
      intro hh; rw [h1] at hh; exact Bool.noConfusion hh
    rw [if_neg hB]
    exact ⟨h1, rfl, rfl, rfl⟩
  · unfold themeStep
    dsimp only
    have hA : s.themeTransitioning = false ∧ s.themeDuration < s.themeTimer + dt :=
      ⟨h1, by rw [hdur]; exact h2⟩
    rw [if_pos hA]
    rcases hp : pickNextThemeIndex s.currentThemeIdx
      { s with themeTimer := s.themeTimer + dt } with ⟨ni, s'⟩
    dsimp only
    have hB : (true : Bool) = true := rfl
    rw [if_pos hB]
    have hC : ¬ ((1 : ℚ) ≤ 0 + dt / 4) := by intro hh; linarith
    rw [if_neg hC]
    obtain ⟨n, hn⟩ := pickNext_snd s.currentThemeIdx
      { s with themeTimer := s.themeTimer + dt }
    rw [hp] at hn
    dsimp only at hn
    refine ⟨rfl, by ring, rfl, ?_⟩
    show s'.currentThemeIdx = s.currentThemeIdx
    rw [hn]
    rfl
  · unfold themeStep
    dsimp only
    have hA : ¬ (s.themeTransitioning = false ∧ s.themeDuration < s.themeTimer + dt) :=
      fun hh => by rw [h1] at hh; exact Bool.noConfusion hh.1
    rw [if_neg hA]
    rw [if_pos h1]
    have hC : ¬ ((1 : ℚ) ≤ s.themeBlend + dt / 4) := not_le.mpr h2
    rw [if_neg hC]
    exact ⟨h1, rfl, rfl, rfl⟩
  · unfold themeStep
    dsimp only
    have hA : ¬ (s.themeTransitioning = false ∧ s.themeDuration < s.themeTimer + dt) :=
      fun hh => by rw [h1] at hh; exact Bool.noConfusion hh.1
    rw [if_neg hA]
    rw [if_pos h1]
    have hC : (1 : ℚ) ≤ s.themeBlend + dt / 4 := h2
    rw [if_pos hC]
    refine ⟨rfl, rfl, rfl, fun hgood => ?_⟩
    rw [pickNext_first s.nextThemeIdx { s with themeTimer := s.themeTimer + dt }
      (by exact hgood)]
    exact hgood

/-- C8 witness: one commit tick at the concrete pre-commit state — the
transition ends, current becomes the old next, and the fresh next differs
from it. -/
theorem c8_witness :
    (cs8.themeDuration = 35 ∧ cs8.themeTransitioning = true ∧
      (1 : ℚ) ≤ cs8.themeBlend + 0.4 / 4 ∧
      Int.toNat ⌊rand0 cs8 0 * (THEMES.length : ℚ)⌋ ≠ cs8.nextThemeIdx) ∧
    (themeStep 0.4 cs8).themeTransitioning = false ∧
    (themeStep 0.4 cs8).themeBlend = 0 ∧
    (themeStep 0.4 cs8).currentThemeIdx = cs8.nextThemeIdx ∧
    (themeStep 0.4 cs8).nextThemeIdx ≠ (themeStep 0.4 cs8).currentThemeIdx :=
  ⟨⟨by decide, by decide, by decide, by decide⟩,
    by
      obtain ⟨a, b, c, d⟩ := (c8_theorem 0.4 cs8 (by decide)).2.2.2 (by decide) (by decide)
      exact ⟨a, b, c, d (by decide)⟩⟩

/-- C1 counterexample: at a playing state holding one hp-1 enemy, no
bullets and two beams through the enemy's center, the tick leaves the enemy
in the population with hp ≤ 0 — beam damage performs no removal, refuting
the claimed post-resolution hp > 0 invariant. -/
theorem c1_counterexample :
    cs1.mode = Mode.playing ∧ (∀ e ∈ cs1.enemies, 0 < e.hp) ∧
    ∃ e ∈ (update envW 0.01 800 600 cs1).enemies, e.hp ≤ 0 := by
  refine ⟨by decide, by decide, ?_⟩
  set_option maxRecDepth 100000 in decide

lemma scoreside_refl (s : GameState) : scoreside s s :=
  ⟨s.score, s.multiplier, s.comboTimer, s.scoreOrbs, s.particles, s.screenShake,
    s.randIdx, rfl⟩

lemma scoreside_trans {s t u : GameState} (h1 : scoreside s t) (h2 : scoreside t u) :
    scoreside s u := by
  obtain ⟨a1, a2, a3, a4, a5, a6, a7, h1⟩ := h1
  obtain ⟨b1, b2, b3, b4, b5, b6, b7, h2⟩ := h2
  refine ⟨b1, b2, b3, b4, b5, b6, b7, ?_⟩
  rw [h2, h1]

lemma scoreside_ite {s t u : GameState} (c : Prop) [Decidable c]
    (h1 : scoreside s t) (h2 : scoreside s u) : scoreside s (if c then t else u) := by
  split
  · exact h1
  · exact h2

lemma pushParticle_scoreside (p : Particle) (s : GameState) :
    scoreside s (pushParticle p s) :=
  ⟨s.score, s.multiplier, s.comboTimer, s.scoreOrbs, s.particles ++ [p], s.screenShake,
    s.randIdx, rfl⟩

lemma pushOrb_scoreside (o : ScoreOrb) (s : GameState) :
    scoreside s (pushOrb o s) :=
  ⟨s.score, s.multiplier, s.comboTimer, s.scoreOrbs ++ [o], s.particles, s.screenShake,
    s.randIdx, rfl⟩

lemma bump_scoreside (n : ℕ) (s : GameState) : scoreside s (bump n s) :=
  ⟨s.score, s.multiplier, s.comboTimer, s.scoreOrbs, s.particles, s.screenShake,
    s.randIdx + n, rfl⟩

lemma impactParticle_scoreside (bx by_ : ℚ) (s : GameState) :
    scoreside s (impactParticle bx by_ s) :=
  scoreside_trans (bump_scoreside 2 s) (pushParticle_scoreside _ _)

lemma muzzleParticle_scoreside (o d : Vec2) (s : GameState) :
    scoreside s (muzzleParticle o d s) :=
  scoreside_trans (bump_scoreside 5 s) (pushParticle_scoreside _ _)

lemma muzzleLoop_scoreside (o d : Vec2) : ∀ (n : ℕ) (s : GameState),
    scoreside s (muzzleLoop o d n s)
  | 0, s => scoreside_refl s
  | n + 1, s =>
    scoreside_trans (muzzleParticle_scoreside o d s)
      (muzzleLoop_scoreside o d n (muzzleParticle o d s))

lemma thrusterParticle_scoreside (r : Rocket) (d : Vec2) (s : GameState) :
    scoreside s (thrusterParticle r d s) :=
  scoreside_trans (bump_scoreside 7 s) (pushParticle_scoreside _ _)

lemma thrusterLoop_scoreside (r : Rocket) (d : Vec2) : ∀ (n : ℕ) (s : GameState),
    scoreside s (thrusterLoop r d n s)
  | 0, s => scoreside_refl s
  | n + 1, s =>
    scoreside_trans (thrusterParticle_scoreside r d s)
      (thrusterLoop_scoreside r d n (thrusterParticle r d s))

lemma spawnThruster_scoreside (env : MathEnv) (dt : ℚ) (s : GameState) :
    scoreside s (spawnThruster env dt s) := by
  unfold spawnThruster
  dsimp only
  exact thrusterLoop_scoreside _ _ _ s

lemma orbLoop_scoreside (env : MathEnv) (cx cy : ℚ) : ∀ (n : ℕ) (s : GameState),
    scoreside s (orbLoop env cx cy n s)
  | 0, s => scoreside_refl s
  | n + 1, s =>
    scoreside_trans
      (scoreside_trans (bump_scoreside 2 s) (pushOrb_scoreside _ _))
      (orbLoop_scoreside env cx cy n _)

lemma explosionParticle_scoreside (env : MathEnv) (x y : ℚ) (kind : EnemyKind)
    (s : GameState) : scoreside s (explosionParticle env x y kind s) := by
  unfold explosionParticle
  dsimp only
  split
  · exact scoreside_trans (bump_scoreside 5 s)
      (scoreside_trans (pushParticle_scoreside _ _) (pushParticle_scoreside _ _))
  · exact scoreside_trans (bump_scoreside 4 s) (pushParticle_scoreside _ _)

lemma explosionLoop_scoreside (env : MathEnv) (x y : ℚ) (kind : EnemyKind) :
    ∀ (n : ℕ) (s : GameState), scoreside s (explosionLoop env x y kind n s)
  | 0, s => scoreside_refl s
  | n + 1, s =>
    scoreside_trans (explosionParticle_scoreside env x y kind s)
      (explosionLoop_scoreside env x y kind n _)

lemma createExplosion_scoreside (env : MathEnv) (x y : ℚ) (kind : EnemyKind)
    (s : GameState) : scoreside s (createExplosion env x y kind s) := by
  unfold createExplosion
  dsimp only
  refine scoreside_trans
    (explosionLoop_scoreside env x y kind (if kind = EnemyKind.asteroid then 30 else 24) s)
    ?_
  exact ⟨_, _, _, _, _, _, _, rfl⟩

lemma onEnemyDestroyed_scoreside (env : MathEnv) (e : Enemy) (s : GameState) :
    scoreside s (onEnemyDestroyed env e s) := by
  unfold onEnemyDestroyed
  dsimp only
  refine scoreside_trans (s := s)
    (t := { { s with score := s.score + max 1 ⌊s.multiplier⌋ } with
            multiplier := min 5 (s.multiplier + 0.2), comboTimer := 0 }) ?_ ?_
  · exact ⟨_, _, _, _, _, _, _, by rfl⟩
  · exact scoreside_trans (bump_scoreside 1 _)
      (scoreside_trans (orbLoop_scoreside env _ _ _ _)
        (createExplosion_scoreside env _ _ _ _))

lemma bulletHitLoop_scoreside (env : MathEnv) : ∀ (e : Enemy) (bs : List Bullet)
    (s : GameState), scoreside s (bulletHitLoop env e bs s).2.2
  | _, [], s => scoreside_refl s
  | e, b :: bs, s => by
    unfold bulletHitLoop
    dsimp only
    split
    · split
      · exact scoreside_trans (impactParticle_scoreside _ _ s)
          (onEnemyDestroyed_scoreside _ _ _)
      · exact scoreside_trans (impactParticle_scoreside _ _ s)
          (bulletHitLoop_scoreside env _ bs _)
    · exact bulletHitLoop_scoreside env e bs s

lemma bulletHitLoop_hp (env : MathEnv) : ∀ (bs : List Bullet) (e : Enemy)
    (s : GameState), 0 < e.hp → (bulletHitLoop env e bs s).1.1 = true →
    0 < (bulletHitLoop env e bs s).1.2.hp
  | [], e, s => fun h _ => h
  | b :: bs, e, s => by
    intro h hflag
    unfold bulletHitLoop at hflag ⊢
    dsimp only at hflag ⊢
    by_cases hc : rectCircleCollide e.position.x e.position.y e.width e.height
        b.x b.y b.radius = true
    · rw [if_pos hc] at hflag ⊢
      by_cases hd : (⟨e.position, e.width, e.height, e.velocity, e.kind, e.rotation,
          e.spin, e.hp - 1, e.asteroidRadii⟩ : Enemy).hp ≤ 0
      · rw [if_pos hd] at hflag
        exact absurd hflag (by simp)
      · rw [if_neg hd] at hflag ⊢
        exact bulletHitLoop_hp env bs _ _ (lt_of_not_le (by simpa using hd)) hflag
    · rw [if_neg hc] at hflag ⊢
      exact bulletHitLoop_hp env bs e s h hflag

lemma enemiesBulletsLoop_scoreside (env : MathEnv) : ∀ (es : List Enemy)
    (bs : List Bullet) (s : GameState),
    scoreside s (enemiesBulletsLoop env es bs s).2.2.2
  | [], _, s => scoreside_refl s
  | e :: es, bs, s => by
    unfold enemiesBulletsLoop
    dsimp only
    split
    · exact scoreside_trans (bulletHitLoop_scoreside env e bs s)
        (enemiesBulletsLoop_scoreside env es _ _)
    · exact scoreside_trans (bulletHitLoop_scoreside env e bs s)
        (enemiesBulletsLoop_scoreside env es _ _)

lemma enemiesBulletsLoop_hp (env : MathEnv) : ∀ (es : List Enemy)
    (bs : List Bullet) (s : GameState), (∀ e ∈ es, 0 < e.hp) →
    ∀ e' ∈ (enemiesBulletsLoop env es bs s).1, 0 < e'.hp
  | [], _, _ => fun _ _ h => absurd h (List.not_mem_nil _)
  | e :: es, bs, s => by
    intro h e' he'
    unfold enemiesBulletsLoop at he'
    dsimp only at he'
    by_cases hf : (bulletHitLoop env e bs s).1.1 = true
    · rw [if_pos hf] at he'
      rcases List.mem_cons.mp he' with rfl | hmem
      · exact bulletHitLoop_hp env bs e s (h e (List.mem_cons_self e es)) hf
      · exact enemiesBulletsLoop_hp env es _ _
          (fun q hq => h q (List.mem_cons_of_mem e hq)) e' hmem
    · rw [if_neg hf] at he'
      exact enemiesBulletsLoop_hp env es _ _
        (fun q hq => h q (List.mem_cons_of_mem e hq)) e' he'

lemma enemiesBulletsLoop_len (env : MathEnv) : ∀ (es : List Enemy)
    (bs : List Bullet) (s : GameState),
    (enemiesBulletsLoop env es bs s).1.length +
      (enemiesBulletsLoop env es bs s).2.1.length = es.length
  | [], _, _ => rfl
  | e :: es, bs, s => by
    unfold enemiesBulletsLoop
    dsimp only
    rcases hp : bulletHitLoop env e bs s with ⟨oe, bs', s'⟩
    rcases hq : enemiesBulletsLoop env es bs' s' with ⟨surv, dest, bs'', s''⟩
    have ih := enemiesBulletsLoop_len env es bs' s'
    rw [hq] at ih
    dsimp only at ih
    split
    · simp only [List.length_cons]
      omega
    · simp only [List.length_cons]
      omega


lemma bump_hpInv (n : ℕ) {s : GameState} (hs : hpInv s) : hpInv (bump n s) := hs

lemma pushEnemy_hpInv {e : Enemy} (he : 0 < e.hp) {s : GameState} (hs : hpInv s) :
    hpInv (pushEnemy e s) := by
  refine ⟨?_, hs.2⟩
  intro q hq
  rcases List.mem_append.mp hq with h | h
  · exact hs.1 q h
  · rw [List.mem_singleton.mp h]
    exact he

lemma moveRocket_hpInv (env : MathEnv) (dt w h : ℚ) {s : GameState}
    (hs : hpInv s) : hpInv (moveRocket env dt w h s) := hs

lemma wellsDrift_hpInv (dt : ℚ) {s : GameState} (hs : hpInv s) :
    hpInv (wellsDrift dt s) := hs

lemma particlesStep_hpInv (dt effDt : ℚ) {s : GameState} (hs : hpInv s) :
    hpInv (particlesStep dt effDt s) := hs

lemma spawnEnemy_hpInv (env : MathEnv) (w h : ℚ) {s : GameState} (hs : hpInv s) :
    hpInv (spawnEnemy env w h s) := by
  obtain ⟨ne, hne, hpos⟩ := spawnEnemy_enemies env w h s
  refine ⟨?_, hs.2⟩
  intro q hq
  rw [hne] at hq
  rcases List.mem_append.mp hq with h | h
  · exact hs.1 q h
  · rw [List.mem_singleton.mp h]
    exact hpos

lemma themeside_refl (s : GameState) : themeside s s :=
  ⟨s.themeTransitioning, s.themeBlend, s.themeTimer, s.currentThemeIdx,
    s.nextThemeIdx, s.randIdx, rfl⟩

lemma themeside_trans {s t u : GameState} (h1 : themeside s t) (h2 : themeside t u) :
    themeside s u := by
  obtain ⟨a1, a2, a3, a4, a5, a6, h1⟩ := h1
  obtain ⟨b1, b2, b3, b4, b5, b6, h2⟩ := h2
  refine ⟨b1, b2, b3, b4, b5, b6, ?_⟩
  rw [h2, h1]

lemma themeside_ite {s t u : GameState} (c : Prop) [Decidable c]
    (h1 : themeside s t) (h2 : themeside s u) : themeside s (if c then t else u) := by
  split
  · exact h1
  · exact h2

lemma bump_themeside (n : ℕ) (s : GameState) : themeside s (bump n s) :=
  ⟨s.themeTransitioning, s.themeBlend, s.themeTimer, s.currentThemeIdx,
    s.nextThemeIdx, s.randIdx + n, rfl⟩

lemma pickNext_themeside (ex : ℕ) (s : GameState) :
    themeside s (pickNextThemeIndex ex s).2 := by
  obtain ⟨n, hn⟩ := pickNext_snd ex s
  rw [hn]
  exact bump_themeside n s

lemma themeStep_themeside (dt : ℚ) (s : GameState) : themeside s (themeStep dt s) := by
  unfold themeStep
  dsimp only
  have h1 : themeside s { s with themeTimer := s.themeTimer + dt } :=
    ⟨s.themeTransitioning, s.themeBlend, s.themeTimer + dt, s.currentThemeIdx,
      s.nextThemeIdx, s.randIdx, rfl⟩
  have h2 : themeside s
      (if s.themeTransitioning = false ∧ s.themeDuration < s.themeTimer + dt then
        match pickNextThemeIndex s.currentThemeIdx { s with themeTimer := s.themeTimer + dt } with
        | (ni, s') =>
          { s' with themeTransitioning := true, themeBlend := 0, themeTimer := 0
                  , nextThemeIdx := ni }
      else { s with themeTimer := s.themeTimer + dt }) := by
    apply themeside_ite
    · rcases hp : pickNextThemeIndex s.currentThemeIdx
        { s with themeTimer := s.themeTimer + dt } with ⟨ni, s'⟩
      have hside := pickNext_themeside s.currentThemeIdx
        { s with themeTimer := s.themeTimer + dt }
      rw [hp] at hside
      dsimp only at hside
      have hside2 : themeside s s' := themeside_trans h1 hside
      obtain ⟨a1, a2, a3, a4, a5, a6, heq⟩ := hside2
      rw [heq]
      exact ⟨true, 0, 0, a4, ni, a6, rfl⟩
    · exact h1
  obtain ⟨a1, a2, a3, a4, a5, a6, heq⟩ := h2
  rw [heq]
  apply themeside_ite
  · apply themeside_ite
    · rcases hp : pickNextThemeIndex
        ({ s with themeTransitioning := a1, themeBlend := a2, themeTimer := a3
                , currentThemeIdx := a4, nextThemeIdx := a5, randIdx := a6 } : GameState).nextThemeIdx
        { s with themeTransitioning := a1, themeBlend := a2, themeTimer := a3
               , currentThemeIdx := a4, nextThemeIdx := a5, randIdx := a6 } with ⟨ni, s'⟩
      have hside := pickNext_themeside a5
        ({ s with themeTransitioning := a1, themeBlend := a2, themeTimer := a3
                , currentThemeIdx := a4, nextThemeIdx := a5, randIdx := a6 } : GameState)
      rw [hp] at hside
      dsimp only at hside
      have hside2 : themeside s s' :=
        themeside_trans ⟨a1, a2, a3, a4, a5, a6, rfl⟩ hside
      obtain ⟨b1, b2, b3, b4, b5, b6, heq2⟩ := hside2
      rw [heq2]
      exact ⟨false, 0, b3, a5, ni, b6, rfl⟩
    · exact ⟨a1, a2 + dt / 4, a3, a4, a5, a6, rfl⟩
  · exact ⟨a1, a2, a3, a4, a5, a6, rfl⟩

lemma hpInv_themeside {s t : GameState} (hs : hpInv s) (h : themeside s t) :
    hpInv t := by
  obtain ⟨a1, a2, a3, a4, a5, a6, rfl⟩ := h
  exact hs

lemma pristine_themeside {s t : GameState} (hs : pristine s) (h : themeside s t) :
    pristine t := by
  obtain ⟨a1, a2, a3, a4, a5, a6, rfl⟩ := h
  exact hs

lemma themeStep_hpInv (dt : ℚ) {s : GameState} (hs : hpInv s) :
    hpInv (themeStep dt s) :=
  hpInv_themeside hs (themeStep_themeside dt s)

lemma comboStep_hpInv (dt : ℚ) {s : GameState} (hs : hpInv s) :
    hpInv (comboStep dt s) := by
  unfold comboStep
  dsimp only
  split
  · exact hs
  · exact hs

lemma difficultyStep_hpInv (dt : ℚ) {s : GameState} (hs : hpInv s) :
    hpInv (difficultyStep dt s) := by
  unfold difficultyStep
  dsimp only
  split
  · exact hs
  · exact hs

lemma spawnDrain_hpInv (env : MathEnv) (w h : ℚ) (ba : Bool) (step : ℚ) :
    ∀ (fuel : ℕ) (acc : ℚ) {s : GameState}, hpInv s →
      hpInv (spawnDrain env w h ba step fuel acc s).2
  | 0, acc, s, hs => hs
  | fuel + 1, acc, s, hs => by
    unfold spawnDrain
    split
    · cases ba with
      | false =>
        exact spawnDrain_hpInv env w h false step fuel _ (spawnEnemy_hpInv env w h hs)
      | true =>
        exact spawnDrain_hpInv env w h true step fuel _ hs
    · exact hs

lemma spawningStep_hpInv (env : MathEnv) (dt w h : ℚ) (ba : Bool) {s : GameState}
    (hs : hpInv s) : hpInv (spawningStep env dt w h ba s) := by
  unfold spawningStep
  dsimp only
  exact spawnDrain_hpInv env w h ba _ _ _ hs

lemma bossStep_hpInv (env : MathEnv) (dt w : ℚ) (ba : Bool) {s : GameState}
    (hs : hpInv s) : hpInv (bossStep env dt w ba s) := by
  unfold bossStep
  dsimp only
  split
  · split
    · exact pushEnemy_hpInv (by norm_num) (bump_hpInv 2 hs)
    · exact pushEnemy_hpInv (by norm_num) (bump_hpInv 19 hs)
  · exact hs

lemma meteorDrain_hpInv (env : MathEnv) (w i : ℚ) :
    ∀ (fuel : ℕ) (acc : ℚ) {s : GameState}, hpInv s →
      hpInv (meteorDrain env w i fuel acc s).2
  | 0, acc, s, hs => hs
  | fuel + 1, acc, s, hs => by
    unfold meteorDrain
    dsimp only
    split
    · exact meteorDrain_hpInv env w i fuel _ (pushEnemy_hpInv (by norm_num) (bump_hpInv 7 hs))
    · exact hs

lemma eventStep_hpInv (env : MathEnv) (dt w : ℚ) {s : GameState}
    (hs : hpInv s) : hpInv (eventStep env dt w s) := by
  unfold eventStep
  dsimp only
  have h1 : hpInv ({ s with eventTimer := s.eventTimer + dt } : GameState) := hs
  have h2 : hpInv
      (if ({ s with eventTimer := s.eventTimer + dt } : GameState).eventActive = none ∧
          (25 : ℚ) < ({ s with eventTimer := s.eventTimer + dt } : GameState).eventTimer then
        { ({ s with eventTimer := s.eventTimer + dt } : GameState) with
            eventActive := some EventKind.meteor, eventTimeLeft := 8
          , eventTimer := 0, meteorSpawnAcc := 0 }
      else { s with eventTimer := s.eventTimer + dt }) := by
    split
    · exact hs
    · exact hs
  generalize hX : (if ({ s with eventTimer := s.eventTimer + dt } : GameState).eventActive = none ∧
          (25 : ℚ) < ({ s with eventTimer := s.eventTimer + dt } : GameState).eventTimer then
        { ({ s with eventTimer := s.eventTimer + dt } : GameState) with
            eventActive := some EventKind.meteor, eventTimeLeft := 8
          , eventTimer := 0, meteorSpawnAcc := 0 }
      else { s with eventTimer := s.eventTimer + dt }) = X at h2 ⊢
  split
  · rcases hp : meteorDrain env w 180
        (Int.toNat ⌈(({ X with eventTimeLeft := X.eventTimeLeft - dt } : GameState).meteorSpawnAcc + dt * 1000) / 180⌉ + 1)
        (({ X with eventTimeLeft := X.eventTimeLeft - dt } : GameState).meteorSpawnAcc + dt * 1000)
        ({ X with eventTimeLeft := X.eventTimeLeft - dt } : GameState) with ⟨acc', s'⟩
    have h3 : hpInv ({ X with eventTimeLeft := X.eventTimeLeft - dt } : GameState) := h2
    have h4 := meteorDrain_hpInv env w 180
      (Int.toNat ⌈(({ X with eventTimeLeft := X.eventTimeLeft - dt } : GameState).meteorSpawnAcc + dt * 1000) / 180⌉ + 1)
      (({ X with eventTimeLeft := X.eventTimeLeft - dt } : GameState).meteorSpawnAcc + dt * 1000)
      h3
    rw [hp] at h4
    dsimp only at h4
    split
    · exact h4
    · exact h4
  · exact h2

lemma gravityPull_hp (env : MathEnv) (effDt : ℚ) (ws : List GravityWell) (e : Enemy) :
    (gravityPull env effDt ws e).hp = e.hp := by
  unfold gravityPull
  induction ws generalizing e with
  | nil => rfl
  | cons w ws ih =>
    rw [List.foldl_cons, ih]
    dsimp only
    split <;> split <;> rfl

lemma enemiesStep_hpInv (env : MathEnv) (effDt : ℚ) {s : GameState}
    (hs : hpInv s) : hpInv (enemiesStep env effDt s) := by
  refine ⟨?_, hs.2⟩
  intro e he
  rw [show (enemiesStep env effDt s).enemies = s.enemies.map (fun e =>
      gravityPull env effDt s.wells
        { e with
          position := { x := e.position.x + e.velocity.x * effDt
                      , y := e.position.y + e.velocity.y * effDt },
          rotation := e.rotation + e.spin * effDt }) from rfl] at he
  rw [List.mem_map] at he
  obtain ⟨a, hmem, hae⟩ := he
  rw [← hae, gravityPull_hp]
  exact hs.1 a hmem

lemma bulletsLoop_snd (env : MathEnv) (effDt : ℚ) (es : List Enemy) :
    ∀ (bs : List Bullet) (s : GameState),
      ∃ n, (bulletsLoop env effDt es bs s).2 = bump n s
  | [], s => ⟨0, by simp [bulletsLoop, bump]⟩
  | b :: bs, s => by
    unfold bulletsLoop
    dsimp only
    by_cases hc : 0 < s.homing ∧ b.homing = false
    · rw [if_pos hc]
      obtain ⟨n, hn⟩ := bulletsLoop_snd env effDt es bs (bump 1 s)
      exact ⟨1 + n, by rw [hn, bump_bump]⟩
    · rw [if_neg hc]
      exact bulletsLoop_snd env effDt es bs s

lemma bulletsStep_hpInv (env : MathEnv) (effDt : ℚ) {s : GameState}
    (hs : hpInv s) : hpInv (bulletsStep env effDt s) := by
  unfold bulletsStep
  dsimp only
  obtain ⟨n, hn⟩ := bulletsLoop_snd env effDt s.enemies s.bullets s
  rcases hp : bulletsLoop env effDt s.enemies s.bullets s with ⟨bs, s'⟩
  rw [hp] at hn
  dsimp only at hn
  rw [hn]
  exact hs

lemma beamsStep_hpInv (dt : ℚ) {s : GameState} (hs : hpInv s) :
    hpInv (beamsStep dt s) := by
  unfold beamsStep
  rw [hs.2]
  exact ⟨hs.1, rfl⟩

lemma hpInv_scoreside {s t : GameState} (hs : hpInv s) (h : scoreside s t) :
    hpInv t := by
  obtain ⟨a1, a2, a3, a4, a5, a6, a7, rfl⟩ := h
  exact hs

lemma bulletCollisions_hpInv (env : MathEnv) {s : GameState} (hs : hpInv s) :
    hpInv (bulletCollisions env s).2 := by
  unfold bulletCollisions
  dsimp only
  rcases hp : enemiesBulletsLoop env s.enemies s.bullets s with ⟨surv, dest, bs, s'⟩
  have hside := enemiesBulletsLoop_scoreside env s.enemies s.bullets s
  have hhp := enemiesBulletsLoop_hp env s.enemies s.bullets s hs.1
  rw [hp] at hside hhp
  dsimp only at hside hhp
  obtain ⟨a1, a2, a3, a4, a5, a6, a7, heq⟩ := hside
  rw [heq]
  exact ⟨hhp, hs.2⟩

lemma pruneStep_hpInv (w h : ℚ) {s : GameState} (hs : hpInv s) :
    hpInv (pruneStep w h s) := by
  refine ⟨?_, hs.2⟩
  intro e he
  exact hs.1 e (List.mem_of_mem_filter he)

lemma orbsLoop_snd (env : MathEnv) (effDt : ℚ) (r : Rocket) (mg : Bool) :
    ∀ (os : List ScoreOrb) (s : GameState),
      ∃ sc, (orbsLoop env effDt r mg os s).2 = { s with score := sc }
  | [], s => ⟨s.score, rfl⟩
  | orb :: os, s => by
    unfold orbsLoop
    dsimp only
    split <;> split <;>
      exact (orbsLoop_snd env effDt r mg os _).imp (fun sc hsc => hsc)

lemma orbsStep_hpInv (env : MathEnv) (effDt : ℚ) {s : GameState}
    (hs : hpInv s) : hpInv (orbsStep env effDt s) := by
  unfold orbsStep
  dsimp only
  obtain ⟨sc, hsc⟩ := orbsLoop_snd env effDt s.rocket (decide (0 < s.magnet)) s.scoreOrbs s
  rcases hp : orbsLoop env effDt s.rocket (decide (0 < s.magnet)) s.scoreOrbs s with ⟨os, s'⟩
  rw [hp] at hsc
  dsimp only at hsc
  rw [hsc]
  exact hs

lemma effectside_refl (s : GameState) : effectside s s :=
  ⟨s.powerUps, s.hasShield, s.shieldTimer, s.slowMo, s.magnet, s.homing,
    s.spread, s.laser, rfl⟩

lemma effectside_trans {s t u : GameState} (h1 : effectside s t)
    (h2 : effectside t u) : effectside s u := by
  obtain ⟨a1, a2, a3, a4, a5, a6, a7, a8, h1⟩ := h1
  obtain ⟨b1, b2, b3, b4, b5, b6, b7, b8, h2⟩ := h2
  refine ⟨b1, b2, b3, b4, b5, b6, b7, b8, ?_⟩
  rw [h2, h1]

lemma applyPowerUp_effectside (t : PowerUpType) (s : GameState) :
    effectside s (applyPowerUp t s) := by
  cases t
  · exact ⟨s.powerUps, s.hasShield, s.shieldTimer, s.slowMo, s.magnet, s.homing, 10, s.laser, rfl⟩
  · exact ⟨s.powerUps, s.hasShield, s.shieldTimer, s.slowMo, s.magnet, s.homing, s.spread, 6, rfl⟩
  · exact ⟨s.powerUps, s.hasShield, s.shieldTimer, s.slowMo, s.magnet, 10, s.spread, s.laser, rfl⟩
  · exact ⟨s.powerUps, true, 8, s.slowMo, s.magnet, s.homing, s.spread, s.laser, rfl⟩
  · exact ⟨s.powerUps, s.hasShield, s.shieldTimer, 6, s.magnet, s.homing, s.spread, s.laser, rfl⟩
  · exact ⟨s.powerUps, s.hasShield, s.shieldTimer, s.slowMo, 10, s.homing, s.spread, s.laser, rfl⟩

lemma pupLoop_effectside (dt : ℚ) (r : Rocket) : ∀ (ps : List PowerUp)
    (s : GameState), effectside s (pupLoop dt r ps s).2
  | [], s => effectside_refl s
  | p :: ps, s => by
    unfold pupLoop
    dsimp only
    split
    · exact effectside_trans (applyPowerUp_effectside p.type s)
        (pupLoop_effectside dt r ps _)
    · split
      · rcases hp : pupLoop dt r ps s with ⟨rest, s'⟩
        have h := pupLoop_effectside dt r ps s
        rw [hp] at h
        exact h
      · exact pupLoop_effectside dt r ps s

lemma hpInv_effectside {s t : GameState} (hs : hpInv s) (h : effectside s t) :
    hpInv t := by
  obtain ⟨a1, a2, a3, a4, a5, a6, a7, a8, rfl⟩ := h
  exact hs

lemma powerUpsStep_hpInv (dt : ℚ) {s : GameState} (hs : hpInv s) :
    hpInv (powerUpsStep dt s) := by
  unfold powerUpsStep
  dsimp only
  rcases hp : pupLoop dt s.rocket s.powerUps s with ⟨ps, s'⟩
  have h := pupLoop_effectside dt s.rocket s.powerUps s
  rw [hp] at h
  dsimp only at h
  obtain ⟨a1, a2, a3, a4, a5, a6, a7, a8, heq⟩ := h
  rw [heq]
  exact hs

lemma effectside_shield {s t : GameState} (v : ℚ) (b : Bool) (h : effectside s t) :
    effectside s (if 0 < t.shieldTimer then { t with shieldTimer := v, hasShield := b }
      else t) := by
  split
  · exact effectside_trans h
      ⟨t.powerUps, b, v, t.slowMo, t.magnet, t.homing, t.spread, t.laser, rfl⟩
  · exact h

lemma effectside_magnet {s t : GameState} (v : ℚ) (h : effectside s t) :
    effectside s (if 0 < t.magnet then { t with magnet := v } else t) := by
  split
  · exact effectside_trans h
      ⟨t.powerUps, t.hasShield, t.shieldTimer, t.slowMo, v, t.homing, t.spread, t.laser, rfl⟩
  · exact h

lemma effectside_homing {s t : GameState} (v : ℚ) (h : effectside s t) :
    effectside s (if 0 < t.homing then { t with homing := v } else t) := by
  split
  · exact effectside_trans h
      ⟨t.powerUps, t.hasShield, t.shieldTimer, t.slowMo, t.magnet, v, t.spread, t.laser, rfl⟩
  · exact h

lemma effectside_spread {s t : GameState} (v : ℚ) (h : effectside s t) :
    effectside s (if 0 < t.spread then { t with spread := v } else t) := by
  split
  · exact effectside_trans h
      ⟨t.powerUps, t.hasShield, t.shieldTimer, t.slowMo, t.magnet, t.homing, v, t.laser, rfl⟩
  · exact h

lemma effectside_laser {s t : GameState} (v : ℚ) (h : effectside s t) :
    effectside s (if 0 < t.laser then { t with laser := v } else t) := by
  split
  · exact effectside_trans h
      ⟨t.powerUps, t.hasShield, t.shieldTimer, t.slowMo, t.magnet, t.homing, t.spread, v, rfl⟩
  · exact h

lemma timersStep_effectside (dt : ℚ) (s : GameState) :
    effectside s (timersStep dt s) := by
  unfold timersStep
  dsimp only
  apply effectside_laser
  apply effectside_spread
  apply effectside_homing
  apply effectside_magnet
  apply effectside_shield
  exact effectside_refl s

lemma timersStep_hpInv (dt : ℚ) {s : GameState} (hs : hpInv s) :
    hpInv (timersStep dt s) :=
  hpInv_effectside hs (timersStep_effectside dt s)

lemma spawnThruster_hpInv (env : MathEnv) (dt : ℚ) {s : GameState}
    (hs : hpInv s) : hpInv (spawnThruster env dt s) :=
  hpInv_scoreside hs (spawnThruster_scoreside env dt s)

lemma shakeStep_hpInv {s : GameState} (hs : hpInv s) : hpInv (shakeStep s) := by
  unfold shakeStep
  split
  · exact hs
  · exact hs

lemma shipCollide_mem (env : MathEnv) (r : Rocket) : ∀ (es : List Enemy)
    (s : GameState) (e : Enemy), e ∈ (shipCollide env r es s).1 → e ∈ es
  | [], s, e => fun h => absurd h (List.not_mem_nil e)
  | q :: es, s, e => by
    intro h
    unfold shipCollide at h
    dsimp only at h
    split at h
    · split at h
      · exact List.mem_cons_of_mem q (shipCollide_mem env r es _ e h)
      · exact absurd h (List.not_mem_nil e)
    · rcases List.mem_cons.mp h with heq | hmem
      · rw [heq]
        exact List.mem_cons_self q es
      · exact List.mem_cons_of_mem q (shipCollide_mem env r es s e hmem)

lemma shipCollide_beams (env : MathEnv) (r : Rocket) : ∀ (es : List Enemy)
    (s : GameState), (shipCollide env r es s).2.beams = s.beams
  | [], s => rfl
  | q :: es, s => by
    unfold shipCollide
    dsimp only
    split
    · split
      · rw [shipCollide_beams env r es _]
        have h := onEnemyDestroyed_scoreside env q
          ({ s with hasShield := false, shieldTimer := 0 } : GameState)
        obtain ⟨a1, a2, a3, a4, a5, a6, a7, heq⟩ := h
        rw [heq]
      · rfl
    · rcases hp : shipCollide env r es s with ⟨surv, s'⟩
      have h := shipCollide_beams env r es s
      rw [hp] at h
      exact h

lemma shipCollisionStep_hpInv (env : MathEnv) {s : GameState} (hs : hpInv s) :
    hpInv (shipCollisionStep env s) := by
  unfold shipCollisionStep
  dsimp only
  rcases hp : shipCollide env s.rocket s.enemies s with ⟨surv, s'⟩
  have hb := shipCollide_beams env s.rocket s.enemies s
  rw [hp] at hb
  dsimp only at hb
  constructor
  · intro e he
    have hmem := shipCollide_mem env s.rocket s.enemies s e (by rw [hp]; exact he)
    exact hs.1 e hmem
  · show s'.beams = []
    rw [hb]
    exact hs.2

lemma update_hpInv (env : MathEnv) (dt w h : ℚ) {s : GameState} (hs : hpInv s) :
    hpInv (update env dt w h s) := by
  unfold update
  split
  · exact hs
  · split
    · exact hs
    · dsimp only
      apply shipCollisionStep_hpInv
      apply shakeStep_hpInv
      apply spawnThruster_hpInv
      apply particlesStep_hpInv
      apply timersStep_hpInv
      apply powerUpsStep_hpInv
      apply orbsStep_hpInv
      apply pruneStep_hpInv
      apply bulletCollisions_hpInv
      apply beamsStep_hpInv
      apply bulletsStep_hpInv
      apply enemiesStep_hpInv
      split
      · apply eventStep_hpInv
        apply bossStep_hpInv
        apply spawningStep_hpInv
        apply difficultyStep_hpInv
        apply comboStep_hpInv
        apply themeStep_hpInv
        exact moveRocket_hpInv env dt w h hs
      · apply eventStep_hpInv
        apply bossStep_hpInv
        apply spawningStep_hpInv
        apply difficultyStep_hpInv
        apply comboStep_hpInv
        apply themeStep_hpInv
        exact moveRocket_hpInv env dt w h hs

lemma pristine_scoreside {s t : GameState} (hs : pristine s) (h : scoreside s t) :
    pristine t := by
  obtain ⟨a1, a2, a3, a4, a5, a6, a7, rfl⟩ := h
  exact hs

lemma pristine_effectfree {s : GameState} (hs : pristine s) : pristine s := hs

lemma moveRocket_pristine (env : MathEnv) (dt w h : ℚ) {s : GameState}
    (hs : pristine s) : pristine (moveRocket env dt w h s) := hs

lemma themeStep_pristine (dt : ℚ) {s : GameState} (hs : pristine s) :
    pristine (themeStep dt s) :=
  pristine_themeside hs (themeStep_themeside dt s)

lemma comboStep_pristine (dt : ℚ) {s : GameState} (hs : pristine s) :
    pristine (comboStep dt s) := by
  unfold comboStep
  dsimp only
  split
  · exact hs
  · exact hs

lemma difficultyStep_pristine (dt : ℚ) {s : GameState} (hs : pristine s) :
    pristine (difficultyStep dt s) := by
  unfold difficultyStep
  dsimp only
  split
  · exact hs
  · exact hs

lemma spawnDrain_pristine (env : MathEnv) (w h : ℚ) (ba : Bool) (step : ℚ) :
    ∀ (fuel : ℕ) (acc : ℚ) {s : GameState}, pristine s →
      pristine (spawnDrain env w h ba step fuel acc s).2
  | 0, acc, s, hs => hs
  | fuel + 1, acc, s, hs => by
    unfold spawnDrain
    split
    · cases ba with
      | false =>
        exact spawnDrain_pristine env w h false step fuel _ hs
      | true =>
        exact spawnDrain_pristine env w h true step fuel _ hs
    · exact hs

lemma spawningStep_pristine (env : MathEnv) (dt w h : ℚ) (ba : Bool) {s : GameState}
    (hs : pristine s) : pristine (spawningStep env dt w h ba s) := by
  unfold spawningStep
  dsimp only
  exact spawnDrain_pristine env w h ba _ _ _ hs

lemma bossStep_pristine (env : MathEnv) (dt w : ℚ) (ba : Bool) {s : GameState}
    (hs : pristine s) : pristine (bossStep env dt w ba s) := by
  unfold bossStep
  dsimp only
  split
  · split
    · exact hs
    · exact hs
  · exact hs

lemma meteorDrain_pristine (env : MathEnv) (w i : ℚ) :
    ∀ (fuel : ℕ) (acc : ℚ) {s : GameState}, pristine s →
      pristine (meteorDrain env w i fuel acc s).2
  | 0, acc, s, hs => hs
  | fuel + 1, acc, s, hs => by
    unfold meteorDrain
    dsimp only
    split
    · exact meteorDrain_pristine env w i fuel _ hs
    · exact hs

lemma eventStep_pristine (env : MathEnv) (dt w : ℚ) {s : GameState}
    (hs : pristine s) : pristine (eventStep env dt w s) := by
  unfold eventStep
  dsimp only
  have h2 : pristine
      (if ({ s with eventTimer := s.eventTimer + dt } : GameState).eventActive = none ∧
          (25 : ℚ) < ({ s with eventTimer := s.eventTimer + dt } : GameState).eventTimer then
        { ({ s with eventTimer := s.eventTimer + dt } : GameState) with
            eventActive := some EventKind.meteor, eventTimeLeft := 8
          , eventTimer := 0, meteorSpawnAcc := 0 }
      else { s with eventTimer := s.eventTimer + dt }) := by
    split
    · exact hs
    · exact hs
  generalize hX : (if ({ s with eventTimer := s.eventTimer + dt } : GameState).eventActive = none ∧
          (25 : ℚ) < ({ s with eventTimer := s.eventTimer + dt } : GameState).eventTimer then
        { ({ s with eventTimer := s.eventTimer + dt } : GameState) with
            eventActive := some EventKind.meteor, eventTimeLeft := 8
          , eventTimer := 0, meteorSpawnAcc := 0 }
      else { s with eventTimer := s.eventTimer + dt }) = X at h2 ⊢
  split
  · rcases hp : meteorDrain env w 180
        (Int.toNat ⌈(({ X with eventTimeLeft := X.eventTimeLeft - dt } : GameState).meteorSpawnAcc + dt * 1000) / 180⌉ + 1)
        (({ X with eventTimeLeft := X.eventTimeLeft - dt } : GameState).meteorSpawnAcc + dt * 1000)
        ({ X with eventTimeLeft := X.eventTimeLeft - dt } : GameState) with ⟨acc', s'⟩
    have h3 : pristine ({ X with eventTimeLeft := X.eventTimeLeft - dt } : GameState) := h2
    have h4 := meteorDrain_pristine env w 180
      (Int.toNat ⌈(({ X with eventTimeLeft := X.eventTimeLeft - dt } : GameState).meteorSpawnAcc + dt * 1000) / 180⌉ + 1)
      (({ X with eventTimeLeft := X.eventTimeLeft - dt } : GameState).meteorSpawnAcc + dt * 1000)
      h3
    rw [hp] at h4
    dsimp only at h4
    split
    · exact h4
    · exact h4
  · exact h2

lemma wellsDrift_pristine (dt : ℚ) {s : GameState} (hs : pristine s) :
    pristine (wellsDrift dt s) := by
  refine ⟨hs.1, ?_, hs.2.2⟩
  show List.map _ s.wells = []
  rw [hs.2.1]
  rfl

lemma pristine_slowdec (v : ℚ) {s : GameState} (hs : pristine s) :
    pristine (if 0 < s.slowMo then { s with slowMo := v } else s) := by
  have hneg : ¬ (0 < s.slowMo) := by
    rw [hs.2.2.2.1]
    exact lt_irrefl 0
  rw [if_neg hneg]
  exact hs

lemma enemiesStep_pristine (env : MathEnv) (effDt : ℚ) {s : GameState}
    (hs : pristine s) : pristine (enemiesStep env effDt s) := hs

lemma bulletsStep_pristine (env : MathEnv) (effDt : ℚ) {s : GameState}
    (hs : pristine s) : pristine (bulletsStep env effDt s) := by
  unfold bulletsStep
  dsimp only
  obtain ⟨n, hn⟩ := bulletsLoop_snd env effDt s.enemies s.bullets s
  rcases hp : bulletsLoop env effDt s.enemies s.bullets s with ⟨bs, s'⟩
  rw [hp] at hn
  dsimp only at hn
  rw [hn]
  exact hs

lemma beamsStep_pristine (dt : ℚ) {s : GameState} (hs : pristine s) :
    pristine (beamsStep dt s) := hs

lemma bulletCollisions_pristine (env : MathEnv) {s : GameState} (hs : pristine s) :
    pristine (bulletCollisions env s).2 := by
  unfold bulletCollisions
  dsimp only
  rcases hp : enemiesBulletsLoop env s.enemies s.bullets s with ⟨surv, dest, bs, s'⟩
  have hside := enemiesBulletsLoop_scoreside env s.enemies s.bullets s
  rw [hp] at hside
  dsimp only at hside
  obtain ⟨a1, a2, a3, a4, a5, a6, a7, heq⟩ := hside
  rw [heq]
  exact hs

lemma pruneStep_pristine (w h : ℚ) {s : GameState} (hs : pristine s) :
    pristine (pruneStep w h s) := hs

lemma orbsStep_pristine (env : MathEnv) (effDt : ℚ) {s : GameState}
    (hs : pristine s) : pristine (orbsStep env effDt s) := by
  unfold orbsStep
  dsimp only
  obtain ⟨sc, hsc⟩ := orbsLoop_snd env effDt s.rocket (decide (0 < s.magnet)) s.scoreOrbs s
  rcases hp : orbsLoop env effDt s.rocket (decide (0 < s.magnet)) s.scoreOrbs s with ⟨os, s'⟩
  rw [hp] at hsc
  dsimp only at hsc
  rw [hsc]
  exact hs

lemma powerUpsStep_pristine (dt : ℚ) {s : GameState} (hs : pristine s) :
    pristine (powerUpsStep dt s) := by
  unfold powerUpsStep
  dsimp only
  rw [hs.1]
  exact ⟨rfl, hs.2⟩

lemma pristine_shield_step (v : ℚ) (b : Bool) {t : GameState} (ht : pristine t) :
    pristine (if 0 < t.shieldTimer then { t with shieldTimer := v, hasShield := b }
      else t) := by
  have hneg : ¬ (0 < t.shieldTimer) := by
    rw [ht.2.2.1]
    exact lt_irrefl 0
  rw [if_neg hneg]
  exact ht

lemma pristine_magnet_step (v : ℚ) {t : GameState} (ht : pristine t) :
    pristine (if 0 < t.magnet then { t with magnet := v } else t) := by
  have hneg : ¬ (0 < t.magnet) := by
    rw [ht.2.2.2.2.1]
    exact lt_irrefl 0
  rw [if_neg hneg]
  exact ht

lemma pristine_homing_step (v : ℚ) {t : GameState} (ht : pristine t) :
    pristine (if 0 < t.homing then { t with homing := v } else t) := by
  have hneg : ¬ (0 < t.homing) := by
    rw [ht.2.2.2.2.2.1]
    exact lt_irrefl 0
  rw [if_neg hneg]
  exact ht

lemma pristine_spread_step (v : ℚ) {t : GameState} (ht : pristine t) :
    pristine (if 0 < t.spread then { t with spread := v } else t) := by
  have hneg : ¬ (0 < t.spread) := by
    rw [ht.2.2.2.2.2.2.1]
    exact lt_irrefl 0
  rw [if_neg hneg]
  exact ht

lemma pristine_laser_step (v : ℚ) {t : GameState} (ht : pristine t) :
    pristine (if 0 < t.laser then { t with laser := v } else t) := by
  have hneg : ¬ (0 < t.laser) := by
    rw [ht.2.2.2.2.2.2.2.1]
    exact lt_irrefl 0
  rw [if_neg hneg]
  exact ht

lemma timersStep_pristine (dt : ℚ) {s : GameState} (hs : pristine s) :
    pristine (timersStep dt s) := by
  unfold timersStep
  dsimp only
  apply pristine_laser_step
  apply pristine_spread_step
  apply pristine_homing_step
  apply pristine_magnet_step
  apply pristine_shield_step
  exact hs

lemma particlesStep_pristine (dt effDt : ℚ) {s : GameState} (hs : pristine s) :
    pristine (particlesStep dt effDt s) := hs

lemma spawnThruster_pristine (env : MathEnv) (dt : ℚ) {s : GameState}
    (hs : pristine s) : pristine (spawnThruster env dt s) :=
  pristine_scoreside hs (spawnThruster_scoreside env dt s)

lemma shakeStep_pristine {s : GameState} (hs : pristine s) :
    pristine (shakeStep s) := by
  unfold shakeStep
  split
  · exact hs
  · exact hs

lemma shipCollide_pristine (env : MathEnv) (r : Rocket) : ∀ (es : List Enemy)
    {s : GameState}, pristine s → pristine (shipCollide env r es s).2
  | [], s, hs => hs
  | q :: es, s, hs => by
    unfold shipCollide
    dsimp only
    split
    · have hneg : ¬ (s.hasShield = true) := by
        rw [hs.2.2.2.2.2.2.2.2]
        exact Bool.noConfusion
      rw [if_neg hneg]
      exact hs
    · exact shipCollide_pristine env r es hs

lemma shipCollisionStep_pristine (env : MathEnv) {s : GameState}
    (hs : pristine s) : pristine (shipCollisionStep env s) := by
  unfold shipCollisionStep
  dsimp only
  rcases hp : shipCollide env s.rocket s.enemies s with ⟨surv, s'⟩
  have h := shipCollide_pristine env s.rocket s.enemies hs
  rw [hp] at h
  dsimp only at h
  exact h

lemma update_pristine (env : MathEnv) (dt w h : ℚ) {s : GameState}
    (hs : pristine s) : pristine (update env dt w h s) := by
  unfold update
  split
  · exact hs
  · split
    · exact hs
    · dsimp only
      apply shipCollisionStep_pristine
      apply shakeStep_pristine
      apply spawnThruster_pristine
      apply particlesStep_pristine
      apply timersStep_pristine
      apply powerUpsStep_pristine
      apply orbsStep_pristine
      apply pruneStep_pristine
      apply bulletCollisions_pristine
      apply beamsStep_pristine
      apply bulletsStep_pristine
      apply enemiesStep_pristine
      apply pristine_slowdec
      apply wellsDrift_pristine
      apply eventStep_pristine
      apply bossStep_pristine
      apply spawningStep_pristine
      apply difficultyStep_pristine
      apply comboStep_pristine
      apply themeStep_pristine
      exact moveRocket_pristine env dt w h hs

lemma muzzleLoop_pristine (o d : Vec2) (n : ℕ) {s : GameState}
    (hs : pristine s) : pristine (muzzleLoop o d n s) :=
  pristine_scoreside hs (muzzleLoop_scoreside o d n s)

lemma shootBullet_pristine (env : MathEnv) {s : GameState} (hs : pristine s) :
    pristine (shootBullet env s) := by
  unfold shootBullet
  dsimp only
  split
  · exact hs
  · apply muzzleLoop_pristine
    split
    · exact hs
    · exact hs

lemma startGame_pristine (w h : ℚ) {s : GameState} (hs : pristine s) :
    pristine (startGame w h s) := hs

lemma mapSwitchCmd_pristine (forward : Bool) {s : GameState} (hs : pristine s) :
    pristine (mapSwitchCmd forward s) := by
  unfold mapSwitchCmd
  dsimp only
  rcases hp : pickNextThemeIndex
      (if forward then (s.currentThemeIdx + 1) % THEMES.length
       else (s.currentThemeIdx + THEMES.length - 1) % THEMES.length) s with ⟨ni, s'⟩
  have h := pickNext_themeside
    (if forward then (s.currentThemeIdx + 1) % THEMES.length
     else (s.currentThemeIdx + THEMES.length - 1) % THEMES.length) s
  rw [hp] at h
  dsimp only at h
  obtain ⟨a1, a2, a3, a4, a5, a6, heq⟩ := h
  rw [heq]
  exact hs

lemma step_pristine (env : MathEnv) (c : Cmd) {s : GameState} (hs : pristine s) :
    pristine (step env c s) := by
  cases c with
  | tick dt w h => exact update_pristine env dt w h hs
  | fire =>
    show pristine (if s.mode = Mode.playing then shootBullet env s else s)
    split
    · exact shootBullet_pristine env hs
    · exact hs
  | start w h =>
    show pristine (if s.mode = Mode.playing then s else startGame w h s)
    split
    · exact hs
    · exact startGame_pristine w h hs
  | setKeys k => exact hs
  | setAim a => exact hs
  | togglePause => exact hs
  | mapSwitch forward => exact mapSwitchCmd_pristine forward hs

lemma run_pristine (env : MathEnv) : ∀ (cmds : List Cmd) {s : GameState},
    pristine s → pristine (run env cmds s)
  | [], s, hs => hs
  | c :: cmds, s, hs => by
    unfold run
    rw [List.foldl_cons]
    exact run_pristine env cmds (step_pristine env c hs)

lemma initState_pristine (f : ℕ → ℚ) : pristine (initState f) :=
  ⟨rfl, rfl, rfl, rfl, rfl, rfl, rfl, rfl, rfl⟩

/-- C1 (corrected): provided no beams are pending at the start of the tick,
collision resolution preserves enemy liveness — every enemy present after
`update` has `hp > 0` when every enemy before it did — and the
bullet-collision pass accounts for every enemy exactly once: survivors plus
destroyed equal the input population.  (The unconditional claim is refuted
by `c1_counterexample`: beam damage decrements hp without removal.) -/
theorem c1_theorem (env : MathEnv) (dt w h : ℚ) (s : GameState)
    (hb : s.beams = []) (ha : ∀ e ∈ s.enemies, 0 < e.hp) :
    (∀ e ∈ (update env dt w h s).enemies, 0 < e.hp) ∧
    (∀ (es : List Enemy) (bs : List Bullet) (st : GameState),
      (enemiesBulletsLoop env es bs st).1.length +
        (enemiesBulletsLoop env es bs st).2.1.length = es.length) :=
  ⟨(update_hpInv env dt w h ⟨ha, hb⟩).1,
    fun es bs st => enemiesBulletsLoop_len env es bs st⟩

/-- C1 witness: the beam-free one-asteroid playing state satisfies both
hypotheses and the tick keeps every enemy's hp positive. -/
theorem c1_witness :
    (cw1.beams = [] ∧ ∀ e ∈ cw1.enemies, 0 < e.hp) ∧
    (∀ e ∈ (update envW 0.01 800 600 cw1).enemies, 0 < e.hp) :=
  ⟨⟨by decide, by decide⟩,
    (c1_theorem envW 0.01 800 600 cw1 (by decide) (by decide)).1⟩

/-- C2: in every state reachable by any command sequence from a freshly
mounted component, the power-up and gravity-well populations are empty,
every timed-effect duration (shield, slow-mo, magnet, homing, spread,
laser) is zero and the shield flag is down — no code path ever spawns a
power-up or a gravity well, so the effects are unreachable. -/
theorem c2_theorem (env : MathEnv) (f : ℕ → ℚ) (cmds : List Cmd) :
    (run env cmds (initState f)).powerUps = [] ∧
    (run env cmds (initState f)).wells = [] ∧
    (run env cmds (initState f)).shieldTimer = 0 ∧
    (run env cmds (initState f)).slowMo = 0 ∧
    (run env cmds (initState f)).magnet = 0 ∧
    (run env cmds (initState f)).homing = 0 ∧
    (run env cmds (initState f)).spread = 0 ∧
    (run env cmds (initState f)).laser = 0 ∧
    (run env cmds (initState f)).hasShield = false :=
  run_pristine env cmds (initState_pristine f)

end RocketBlaster
